import Mathlib

/-!
Verification of the SPDM requester core (GET_CERTIFICATE and GET_MEASUREMENTS
flows plus their codecs) of the rust-spdm library.

The Rust sources embedded here are:
  - spdmlib/src/message/measurement.rs
      (SpdmGetMeasurementsRequestPayload, SpdmMeasurementsResponsePayload)
  - spdmlib/src/requester/get_measurements_req.rs
      (send_receive_spdm_measurement_record, encode_spdm_measurement_record,
       handle_spdm_measurement_record_response)
  - spdmlib/src/requester/get_certificate_req.rs
      (send_receive_spdm_certificate_partial, send_receive_spdm_certificate)

Supporting types that live outside the provided sources (the codec crate,
the protocol structs, config constants) are modelled from the specification
document; each such definition carries a doc comment starting with
"Modelled from the spec:".

Bytes are modelled as natural numbers (a value below 256 in every real
execution); a byte stream is a list.  A reader is represented by the unread
suffix of the stream; each read primitive returns the decoded value together
with that suffix.  A writer is represented by the list of bytes produced so
far (the spec's BufferFull failure of a writer is not exercised by any claim
and the writer model is unbounded; bounded transcript buffers, whose
overflow the requester code does check, are modelled with a capacity).
-/

namespace Spdm

/-- Modelled from the spec: a byte stream over the codec's growable byte
buffer (§4.1).  Bytes are natural numbers below 256. -/
abbrev Bytes := List Nat

/-- Modelled from the spec: u8::read of the codec crate; returns the byte
and the remaining stream, or None on underflow. -/
def readU8 : Bytes → Option (Nat × Bytes)
  | [] => none
  | b :: rest => some (b, rest)

/-- Modelled from the spec: reading a fixed number of bytes (fixed byte
arrays of §4.1); None on underflow. -/
def readBytesN : Nat → Bytes → Option (Bytes × Bytes)
  | 0, bs => some ([], bs)
  | _ + 1, [] => none
  | n + 1, b :: rest =>
    match readBytesN n rest with
    | some (xs, r) => some (b :: xs, r)
    | none => none

/-- Modelled from the spec: u16::encode of the codec crate, little-endian. -/
def encodeU16 (n : Nat) : Bytes := [n % 256, n / 256 % 256]

/-- Modelled from the spec: u16::read of the codec crate, little-endian. -/
def readU16 : Bytes → Option (Nat × Bytes)
  | lo :: hi :: rest => some (lo + 256 * hi, rest)
  | _ => none

/-- Modelled from the spec: u24::encode of the codec crate, little-endian. -/
def encodeU24 (n : Nat) : Bytes := [n % 256, n / 256 % 256, n / 65536 % 256]

/-- Modelled from the spec: u24::read of the codec crate, little-endian. -/
def readU24 : Bytes → Option (Nat × Bytes)
  | b0 :: b1 :: b2 :: rest => some (b0 + 256 * b1 + 65536 * b2, rest)
  | _ => none

/-- SpdmMeasurementAttributes of measurement.rs: two bit flags,
SIGNATURE_REQUESTED is bit 0 and RAW_BIT_STREAM_REQUESTED is bit 1. -/
structure SpdmMeasurementAttributes where
  signature_requested : Bool
  raw_bit_stream_requested : Bool
deriving DecidableEq

/-- The bits() value of SpdmMeasurementAttributes. -/
def SpdmMeasurementAttributes.bits (a : SpdmMeasurementAttributes) : Nat :=
  (if a.signature_requested then 1 else 0) +
    (if a.raw_bit_stream_requested then 2 else 0)

/-- SpdmMeasurementAttributes::from_bits: rejects any unknown bit. -/
def SpdmMeasurementAttributes.from_bits (n : Nat) :
    Option SpdmMeasurementAttributes :=
  if n < 4 then some ⟨n % 2 = 1, n / 2 % 2 = 1⟩ else none

/-- Codec instance of SpdmMeasurementAttributes (measurement.rs): encode
writes the bits byte; read parses with from_bits. -/
def SpdmMeasurementAttributes.read (bs : Bytes) :
    Option (SpdmMeasurementAttributes × Bytes) :=
  match readU8 bs with
  | none => none
  | some (b, rest) =>
    match SpdmMeasurementAttributes.from_bits b with
    | none => none
    | some a => some (a, rest)

/-- SpdmMeasurementOperation of measurement.rs, generated by enum_builder:
known values 0x0 and 0xFF plus an Unknown variant preserving the byte. -/
inductive SpdmMeasurementOperation where
  | SpdmMeasurementQueryTotalNumber
  | SpdmMeasurementRequestAll
  | Unknown (v : Nat)
deriving DecidableEq

/-- get_u8 of SpdmMeasurementOperation (enum_builder). -/
def SpdmMeasurementOperation.get_u8 : SpdmMeasurementOperation → Nat
  | .SpdmMeasurementQueryTotalNumber => 0x0
  | .SpdmMeasurementRequestAll => 0xFF
  | .Unknown v => v

/-- The read of SpdmMeasurementOperation (enum_builder): a known byte maps
to its variant, every other byte to Unknown. -/
def SpdmMeasurementOperation.ofByte (b : Nat) : SpdmMeasurementOperation :=
  if b = 0x0 then .SpdmMeasurementQueryTotalNumber
  else if b = 0xFF then .SpdmMeasurementRequestAll
  else .Unknown b

/-- Modelled from the spec: SPDM_NONCE_SIZE, "Nonce: fixed 32-byte random"
(§3). -/
def SPDM_NONCE_SIZE : Nat := 32

/-- Modelled from the spec: SpdmNonceStruct, a fixed 32-byte container
(§3); the list holds the 32 bytes. -/
structure SpdmNonceStruct where
  data : Bytes
deriving DecidableEq

/-- Modelled from the spec: SpdmNonceStruct::default(), all-zero bytes
("When absent on decode, fields default to zero", §4.2). -/
def SpdmNonceStruct.default : SpdmNonceStruct :=
  ⟨List.replicate SPDM_NONCE_SIZE 0⟩

/-- Modelled from the spec: reading a nonce consumes exactly 32 bytes. -/
def SpdmNonceStruct.read (bs : Bytes) : Option (SpdmNonceStruct × Bytes) :=
  match readBytesN SPDM_NONCE_SIZE bs with
  | none => none
  | some (xs, rest) => some (⟨xs⟩, rest)

/-- SpdmGetMeasurementsRequestPayload of measurement.rs. -/
structure SpdmGetMeasurementsRequestPayload where
  measurement_attributes : SpdmMeasurementAttributes
  measurement_operation : SpdmMeasurementOperation
  nonce : SpdmNonceStruct
  slot_id : Nat
deriving DecidableEq

/-- spdm_encode of SpdmGetMeasurementsRequestPayload (measurement.rs):
attributes byte (param1), operation byte (param2), and — only when
SIGNATURE_REQUESTED is set — the nonce and the slot id. -/
def SpdmGetMeasurementsRequestPayload.spdm_encode
    (p : SpdmGetMeasurementsRequestPayload) : Bytes :=
  [p.measurement_attributes.bits, p.measurement_operation.get_u8] ++
    (if p.measurement_attributes.signature_requested then
      p.nonce.data ++ [p.slot_id]
    else [])

/-- spdm_read of SpdmGetMeasurementsRequestPayload (measurement.rs): the
nonce and slot id are read only when SIGNATURE_REQUESTED is set in the
attributes byte, and default to zero otherwise. -/
def SpdmGetMeasurementsRequestPayload.spdm_read (bs : Bytes) :
    Option (SpdmGetMeasurementsRequestPayload × Bytes) :=
  match SpdmMeasurementAttributes.read bs with
  | none => none
  | some (attrs, r1) =>
    match readU8 r1 with
    | none => none
    | some (opByte, r2) =>
      if attrs.signature_requested then
        match SpdmNonceStruct.read r2 with
        | none => none
        | some (nonce, r3) =>
          match readU8 r3 with
          | none => none
          | some (slot, r4) =>
            some (⟨attrs, SpdmMeasurementOperation.ofByte opByte, nonce,
              slot⟩, r4)
      else
        some (⟨attrs, SpdmMeasurementOperation.ofByte opByte,
          SpdmNonceStruct.default, 0⟩, r2)

/-- SpdmMeasurementContentChanged (wire values fixed by the spec, §6:
content_changed is NotSupported 0x00, DetectedChange 0x10 or NoChange 0x20,
living in bits 5:4 of Param2).  The type itself is outside the provided
sources; modelled from the spec. -/
inductive SpdmMeasurementContentChanged where
  | NOT_SUPPORTED
  | DETECTED_CHANGE
  | NO_CHANGE
deriving DecidableEq

/-- The bits() value of SpdmMeasurementContentChanged. -/
def SpdmMeasurementContentChanged.bits : SpdmMeasurementContentChanged → Nat
  | .NOT_SUPPORTED => 0x00
  | .DETECTED_CHANGE => 0x10
  | .NO_CHANGE => 0x20

/-- SpdmMeasurementContentChanged::from_bits: rejects any other value. -/
def SpdmMeasurementContentChanged.from_bits (n : Nat) :
    Option SpdmMeasurementContentChanged :=
  if n = 0x00 then some .NOT_SUPPORTED
  else if n = 0x10 then some .DETECTED_CHANGE
  else if n = 0x20 then some .NO_CHANGE
  else none

/-- MEASUREMENT_RESPONDER_PARAM2_SLOT_ID_MASK of measurement.rs. -/
def MEASUREMENT_RESPONDER_PARAM2_SLOT_ID_MASK : Nat := 0x0F

/-- MEASUREMENT_RESPONDER_PARAM2_CONTENT_CHANGED_MASK of measurement.rs. -/
def MEASUREMENT_RESPONDER_PARAM2_CONTENT_CHANGED_MASK : Nat := 0x30

/-- Modelled from the spec: SpdmMeasurementRecordStructure, "Measurement
record: {number_of_blocks: u8, record_length: u24, data: bytes}" (§3).  The
data list holds the record_length bytes of the record. -/
structure SpdmMeasurementRecordStructure where
  number_of_blocks : Nat
  measurement_record_length : Nat
  measurement_record_data : Bytes
deriving DecidableEq

/-- Modelled from the spec: encoding of a measurement record — the block
count byte, the u24 record length, then the record bytes. -/
def SpdmMeasurementRecordStructure.spdm_encode
    (r : SpdmMeasurementRecordStructure) : Bytes :=
  [r.number_of_blocks] ++ encodeU24 r.measurement_record_length ++
    r.measurement_record_data

/-- Modelled from the spec: decoding of a measurement record — reads the
block count, the u24 length, then exactly that many record bytes. -/
def SpdmMeasurementRecordStructure.spdm_read (bs : Bytes) :
    Option (SpdmMeasurementRecordStructure × Bytes) :=
  match readU8 bs with
  | none => none
  | some (nob, r1) =>
    match readU24 r1 with
    | none => none
    | some (len, r2) =>
      match readBytesN len r2 with
      | none => none
      | some (xs, r3) => some (⟨nob, len, xs⟩, r3)

/-- Modelled from the spec: SpdmOpaqueStruct, "Opaque data: {size: u16,
data: bytes}" (§3); the list holds the size bytes of opaque data. -/
structure SpdmOpaqueStruct where
  data_size : Nat
  data : Bytes
deriving DecidableEq

/-- Modelled from the spec: encoding of opaque data — the u16 size then the
data bytes. -/
def SpdmOpaqueStruct.spdm_encode (o : SpdmOpaqueStruct) : Bytes :=
  encodeU16 o.data_size ++ o.data

/-- Modelled from the spec: decoding of opaque data — the u16 size then
exactly that many bytes. -/
def SpdmOpaqueStruct.spdm_read (bs : Bytes) :
    Option (SpdmOpaqueStruct × Bytes) :=
  match readU16 bs with
  | none => none
  | some (sz, r1) =>
    match readBytesN sz r1 with
    | none => none
    | some (xs, r2) => some (⟨sz, xs⟩, r2)

/-- Modelled from the spec: SpdmSignatureStruct, "Signature: length-tagged
byte container sized by algorithm" (§3); the list holds the signature
bytes, whose number is the negotiated asymmetric key size. -/
structure SpdmSignatureStruct where
  data_size : Nat
  data : Bytes
deriving DecidableEq

/-- Modelled from the spec: SpdmSignatureStruct::default(), the empty
container. -/
def SpdmSignatureStruct.default : SpdmSignatureStruct := ⟨0, []⟩

/-- Modelled from the spec: encoding a signature emits its
asym-key-size-many bytes (the container is sized by algorithm). -/
def SpdmSignatureStruct.spdm_encode (s : SpdmSignatureStruct) : Bytes :=
  s.data

/-- Modelled from the spec: decoding a signature consumes exactly the
negotiated asymmetric key size many bytes and tags the container with that
size. -/
def SpdmSignatureStruct.spdm_read (asymSize : Nat) (bs : Bytes) :
    Option (SpdmSignatureStruct × Bytes) :=
  match readBytesN asymSize bs with
  | none => none
  | some (xs, rest) => some (⟨asymSize, xs⟩, rest)

/-- Modelled from the spec: a bounded transcript buffer (§4.3, "a bounded
byte buffer with append (None on overflow) and reset"). -/
structure ManagedBuffer where
  cap : Nat
  data : Bytes
deriving DecidableEq

/-- Modelled from the spec: append of a bounded transcript buffer; None on
overflow, and nothing is written then. -/
def ManagedBuffer.append_message (b : ManagedBuffer) (xs : Bytes) :
    Option ManagedBuffer :=
  if b.data.length + xs.length ≤ b.cap then some ⟨b.cap, b.data ++ xs⟩
  else none

/-- Modelled from the spec: reset of a bounded transcript buffer. -/
def ManagedBuffer.reset_message (b : ManagedBuffer) : ManagedBuffer :=
  ⟨b.cap, []⟩

/-- Modelled from the spec: the config_info compartment of the context
(§4.5), restricted to the field the embedded code consults. -/
structure SpdmConfigInfo where
  runtime_content_change_support : Bool
deriving DecidableEq

/-- Modelled from the spec: the negotiate_info compartment of the context
(§4.5).  spdm_version_sel is the negotiated version byte ("Version: a
single byte with major/minor nibbles", §3; SpdmVersion11 is 0x11 and
SpdmVersion12 is 0x12); base_asym_size is base_asym_sel.get_size() and
base_hash_size is base_hash_sel.get_size(). -/
structure SpdmNegotiateInfo where
  spdm_version_sel : Nat
  base_asym_size : Nat
  base_hash_size : Nat
deriving DecidableEq

/-- Modelled from the spec: the peer certificate chain slot being
assembled, "{total_len, root_hash, DER certs…}" with its current data_size
(§3, §4.6.1).  The data list holds the bytes written so far (the backing
array is zero beyond them). -/
structure SpdmCertChain where
  data_size : Nat
  data : Bytes
deriving DecidableEq

/-- Modelled from the spec: the runtime_info compartment of the context
(§4.5): transcripts, need_measurement_signature and the last
content_changed.  message_m stands for the measurement transcript addressed
by the session_id of the flow at hand (the per-session variant when a
session id is given, the main one otherwise, §4.3). -/
structure SpdmRuntimeInfo where
  need_measurement_signature : Bool
  content_changed : SpdmMeasurementContentChanged
  message_m : ManagedBuffer
  message_b : ManagedBuffer
deriving DecidableEq

/-- The SpdmContext compartments consulted by the embedded code (spec §4.5),
together with the peer certificate chain under assembly. -/
structure SpdmContext where
  config_info : SpdmConfigInfo
  negotiate_info : SpdmNegotiateInfo
  runtime_info : SpdmRuntimeInfo
  peer_cert_chain : SpdmCertChain
deriving DecidableEq

/-- SpdmVersion::SpdmVersion11 as a version byte. -/
def SpdmVersion11 : Nat := 0x11

/-- SpdmVersion::SpdmVersion12 as a version byte. -/
def SpdmVersion12 : Nat := 0x12

/-- SpdmMeasurementsResponsePayload of measurement.rs. -/
structure SpdmMeasurementsResponsePayload where
  number_of_measurement : Nat
  content_changed : SpdmMeasurementContentChanged
  slot_id : Nat
  measurement_record : SpdmMeasurementRecordStructure
  nonce : SpdmNonceStruct
  opaque_data : SpdmOpaqueStruct
  signature : SpdmSignatureStruct
deriving DecidableEq

/-- spdm_encode of SpdmMeasurementsResponsePayload (measurement.rs):
Param1 is 0 when number_of_measurement is 1 and the field itself otherwise;
Param2 is slot_id bitwise-or the content_changed bits when the negotiated
version equals SpdmVersion12 and the config enables
runtime_content_change_support, and slot_id alone otherwise; then the
measurement record, the nonce, the opaque data, and — only when
runtime_info.need_measurement_signature — the signature. -/
def SpdmMeasurementsResponsePayload.spdm_encode (context : SpdmContext)
    (p : SpdmMeasurementsResponsePayload) : Bytes :=
  (if p.number_of_measurement = 1 then [0] else [p.number_of_measurement]) ++
    (if context.negotiate_info.spdm_version_sel = SpdmVersion12 ∧
        context.config_info.runtime_content_change_support then
      [Nat.lor p.slot_id p.content_changed.bits]
    else [p.slot_id]) ++
    p.measurement_record.spdm_encode ++
    p.nonce.data ++
    p.opaque_data.spdm_encode ++
    (if context.runtime_info.need_measurement_signature then
      p.signature.spdm_encode
    else [])

/-- spdm_read of SpdmMeasurementsResponsePayload (measurement.rs): Param1
is number_of_measurement; Param2 is split by the two masks into slot_id
(bits 3:0) and content_changed (bits 5:4, parsed with from_bits); then the
measurement record, the nonce, the opaque data, and the signature exactly
when runtime_info.need_measurement_signature (defaulted otherwise). -/
def SpdmMeasurementsResponsePayload.spdm_read (context : SpdmContext)
    (bs : Bytes) : Option (SpdmMeasurementsResponsePayload × Bytes) :=
  match readU8 bs with
  | none => none
  | some (nom, r1) =>
    match readU8 r1 with
    | none => none
    | some (param2, r2) =>
      match SpdmMeasurementContentChanged.from_bits
          (Nat.land param2 MEASUREMENT_RESPONDER_PARAM2_CONTENT_CHANGED_MASK)
        with
      | none => none
      | some cc =>
        match SpdmMeasurementRecordStructure.spdm_read r2 with
        | none => none
        | some (rec, r3) =>
          match SpdmNonceStruct.read r3 with
          | none => none
          | some (nonce, r4) =>
            match SpdmOpaqueStruct.spdm_read r4 with
            | none => none
            | some (opq, r5) =>
              if context.runtime_info.need_measurement_signature then
                match SpdmSignatureStruct.spdm_read
                    context.negotiate_info.base_asym_size r5 with
                | none => none
                | some (sig, r6) =>
                  some (⟨nom,
                    cc,
                    Nat.land param2 MEASUREMENT_RESPONDER_PARAM2_SLOT_ID_MASK,
                    rec, nonce, opq, sig⟩, r6)
              else
                some (⟨nom,
                  cc,
                  Nat.land param2 MEASUREMENT_RESPONDER_PARAM2_SLOT_ID_MASK,
                  rec, nonce, opq, SpdmSignatureStruct.default⟩, r5)

/-- The integer-tagged error kinds of the embedded code (spec §7): the
SPDM_STATUS values used by get_measurements_req.rs and the legacy codes of
the spdm_result_err macro used by get_certificate_req.rs. -/
inductive SpdmStatus where
  | SPDM_STATUS_BUFFER_FULL
  | SPDM_STATUS_INVALID_MSG_FIELD
  | SPDM_STATUS_INVALID_STATE_LOCAL
  | SPDM_STATUS_VERIF_FAIL
  | SPDM_STATUS_ERROR_PEER
  | SPDM_STATUS_INVALID_PARAMETER
  | SPDM_STATUS_CRYPTO_ERROR
  | ENOMEM
  | EFAULT
  | EINVAL
  | Eio
deriving DecidableEq

/-- The request/response codes the embedded code dispatches on.  The type
lives outside the provided sources; modelled from the spec (§4.7 dispatch
by request_response_code) with the byte values of the DMTF SPDM
specification the wire format follows (§6): GET_MEASUREMENTS 0xE0,
MEASUREMENTS 0x60, GET_CERTIFICATE 0x82, CERTIFICATE 0x02, ERROR 0x7F;
enum_builder keeps every other byte in an Unknown variant. -/
inductive SpdmRequestResponseCode where
  | SpdmRequestGetMeasurements
  | SpdmResponseMeasurements
  | SpdmRequestGetCertificate
  | SpdmResponseCertificate
  | SpdmResponseError
  | Unknown (v : Nat)
deriving DecidableEq

/-- get_u8 of SpdmRequestResponseCode. -/
def SpdmRequestResponseCode.get_u8 : SpdmRequestResponseCode → Nat
  | .SpdmRequestGetMeasurements => 0xE0
  | .SpdmResponseMeasurements => 0x60
  | .SpdmRequestGetCertificate => 0x82
  | .SpdmResponseCertificate => 0x02
  | .SpdmResponseError => 0x7F
  | .Unknown v => v

/-- The read of SpdmRequestResponseCode: a known byte maps to its variant,
every other byte to Unknown. -/
def SpdmRequestResponseCode.ofByte (b : Nat) : SpdmRequestResponseCode :=
  if b = 0xE0 then .SpdmRequestGetMeasurements
  else if b = 0x60 then .SpdmResponseMeasurements
  else if b = 0x82 then .SpdmRequestGetCertificate
  else if b = 0x02 then .SpdmResponseCertificate
  else if b = 0x7F then .SpdmResponseError
  else .Unknown b

/-- Modelled from the spec: the message header, "{version: Version,
request_response_code: u8}" (§3), two bytes on the wire (§6). -/
structure SpdmMessageHeader where
  version : Nat
  request_response_code : SpdmRequestResponseCode
deriving DecidableEq

/-- Modelled from the spec: encoding of the two-byte message header. -/
def SpdmMessageHeader.encode (h : SpdmMessageHeader) : Bytes :=
  [h.version, h.request_response_code.get_u8]

/-- Modelled from the spec: SpdmMessageHeader::read, consuming the version
byte and the code byte. -/
def SpdmMessageHeader.read (bs : Bytes) :
    Option (SpdmMessageHeader × Bytes) :=
  match readU8 bs with
  | none => none
  | some (v, r1) =>
    match readU8 r1 with
    | none => none
    | some (c, r2) =>
      some (⟨v, SpdmRequestResponseCode.ofByte c⟩, r2)

/-- Decidable equality of Except outcomes, for evaluating the model on
concrete inputs. -/
instance exceptDecEq {e a : Type} [DecidableEq e] [DecidableEq a] :
    DecidableEq (Except e a) := fun x y =>
  match x, y with
  | .ok u, .ok v =>
    if h : u = v then .isTrue (by rw [h]) else
      .isFalse (by intro hc; cases hc; exact h rfl)
  | .error u, .error v =>
    if h : u = v then .isTrue (by rw [h]) else
      .isFalse (by intro hc; cases hc; exact h rfl)
  | .ok _, .error _ => .isFalse (by intro hc; cases hc)
  | .error _, .ok _ => .isFalse (by intro hc; cases hc)

/-- The result of handle_spdm_measurement_record_response: the returned
SpdmResult with the measured count on success, the context after the call
(self.common), and the spdm_measurement_record_structure out-parameter. -/
structure MeasurementHandleOut where
  result : Except SpdmStatus Nat
  common : SpdmContext
  record : SpdmMeasurementRecordStructure
deriving DecidableEq

/-- handle_spdm_measurement_record_response of get_measurements_req.rs.

The two calls it makes into code outside the provided sources are passed in
as oracles: verify stands for self.verify_measurement_signature and is
given the transcript bytes of message_m and the received signature bytes
(it abstracts the crypto façade of spec §4.4); errHandler stands for the
outcome of spdm_handle_error_response_main (spec §7: a handled error
response surfaces as ErrorPeer), which does not touch the state modelled
here.  message_m is the transcript addressed by the session_id argument of
the Rust function, as in SpdmRuntimeInfo. -/
def handle_spdm_measurement_record_response
    (verify : Bytes → Bytes → Bool)
    (errHandler : Except SpdmStatus Unit)
    (common : SpdmContext)
    (measurement_attributes : SpdmMeasurementAttributes)
    (measurement_operation : SpdmMeasurementOperation)
    (record0 : SpdmMeasurementRecordStructure)
    (send_buffer receive_buffer : Bytes) : MeasurementHandleOut :=
  let common :=
    { common with runtime_info :=
      { common.runtime_info with need_measurement_signature :=
        measurement_attributes.signature_requested } }
  match SpdmMessageHeader.read receive_buffer with
  | none => ⟨.error .SPDM_STATUS_INVALID_MSG_FIELD, common, record0⟩
  | some (message_header, rest) =>
    if message_header.version ≠ common.negotiate_info.spdm_version_sel then
      ⟨.error .SPDM_STATUS_INVALID_MSG_FIELD, common, record0⟩
    else
      match message_header.request_response_code with
      | .SpdmResponseMeasurements =>
        match SpdmMeasurementsResponsePayload.spdm_read common rest with
        | none => ⟨.error .SPDM_STATUS_INVALID_MSG_FIELD, common, record0⟩
        | some (measurements, rest2) =>
          let used := receive_buffer.length - rest2.length
          let common :=
            if SpdmVersion12 ≤ common.negotiate_info.spdm_version_sel then
              { common with runtime_info :=
                { common.runtime_info with content_changed :=
                  measurements.content_changed } }
            else common
          let base_asym_size := common.negotiate_info.base_asym_size
          let temp_used := used -
            (if common.runtime_info.need_measurement_signature then
              base_asym_size
            else 0)
          match common.runtime_info.message_m.append_message send_buffer with
          | none => ⟨.error .SPDM_STATUS_BUFFER_FULL, common, record0⟩
          | some mm1 =>
            match mm1.append_message (receive_buffer.take temp_used) with
            | none =>
              ⟨.error .SPDM_STATUS_BUFFER_FULL,
                { common with runtime_info :=
                  { common.runtime_info with message_m := mm1 } }, record0⟩
            | some mm2 =>
              let common :=
                { common with runtime_info :=
                  { common.runtime_info with message_m := mm2 } }
              if measurement_attributes.signature_requested then
                if verify mm2.data measurements.signature.data then
                  let common :=
                    { common with runtime_info :=
                      { common.runtime_info with message_m :=
                        mm2.reset_message } }
                  ⟨.ok (match measurement_operation with
                    | .SpdmMeasurementQueryTotalNumber =>
                      measurements.number_of_measurement
                    | .SpdmMeasurementRequestAll =>
                      measurements.measurement_record.number_of_blocks
                    | _ =>
                      measurements.measurement_record.number_of_blocks),
                    common, measurements.measurement_record⟩
                else
                  ⟨.error .SPDM_STATUS_VERIF_FAIL,
                    { common with runtime_info :=
                      { common.runtime_info with message_m :=
                        mm2.reset_message } }, record0⟩
              else
                ⟨.ok (match measurement_operation with
                  | .SpdmMeasurementQueryTotalNumber =>
                    measurements.number_of_measurement
                  | .SpdmMeasurementRequestAll =>
                    measurements.measurement_record.number_of_blocks
                  | _ =>
                    measurements.measurement_record.number_of_blocks),
                  common, measurements.measurement_record⟩
      | .SpdmResponseError =>
        match errHandler with
        | .error status => ⟨.error status, common, record0⟩
        | .ok _ => ⟨.error .SPDM_STATUS_ERROR_PEER, common, record0⟩
      | _ => ⟨.error .SPDM_STATUS_ERROR_PEER, common, record0⟩

/-- Modelled from the spec: SPDM_MAX_SLOT_NUMBER, "Slot identifiers are in
[0, MAX_SLOTS) (typically 8)" (§3; glossary: "up to eight"). -/
def SPDM_MAX_SLOT_NUMBER : Nat := 8

/-- Modelled from the spec: MAX_SPDM_CERT_PORTION_LEN, the per-portion cap
of a certificate chain ("per-portion cap (e.g., 512 B)", §3). -/
def MAX_SPDM_CERT_PORTION_LEN : Nat := 512

/-- Modelled from the spec: MAX_SPDM_CERT_CHAIN_DATA_SIZE, the total cap of
a certificate chain ("total cap (e.g., 4 KiB)", §3). -/
def MAX_SPDM_CERT_CHAIN_DATA_SIZE : Nat := 4096

/-- encode_spdm_measurement_record of get_measurements_req.rs: the SPDM
message made of the header — the negotiated version and the
GET_MEASUREMENTS request code — followed by the
SpdmGetMeasurementsRequestPayload built from the arguments and the fresh
nonce.  The nonce drawn from crypto::rand::get_random is passed in as an
oracle. -/
def encode_spdm_measurement_record (common : SpdmContext)
    (measurement_attributes : SpdmMeasurementAttributes)
    (measurement_operation : SpdmMeasurementOperation)
    (slot_id : Nat) (nonce : Bytes) : Bytes :=
  SpdmMessageHeader.encode
    ⟨common.negotiate_info.spdm_version_sel,
      .SpdmRequestGetMeasurements⟩ ++
    SpdmGetMeasurementsRequestPayload.spdm_encode
      ⟨measurement_attributes, measurement_operation, ⟨nonce⟩, slot_id⟩

/-- The result of send_receive_spdm_measurement_record: the SpdmResult, the
context after the call, the record out-parameter, and the list of messages
the requester wrote to the transport. -/
structure MeasurementFlowOut where
  result : Except SpdmStatus Nat
  common : SpdmContext
  record : SpdmMeasurementRecordStructure
  sent : List Bytes
deriving DecidableEq

/-- send_receive_spdm_measurement_record of get_measurements_req.rs: the
slot guard, then encode, send, receive and the response handler.  The
transport (send_message/receive_message or their secured variants) is the
respond oracle mapping the sent bytes to the received bytes; nonce, verify
and errHandler are the oracles of encode_spdm_measurement_record and
handle_spdm_measurement_record_response. -/
def send_receive_spdm_measurement_record
    (verify : Bytes → Bytes → Bool)
    (errHandler : Except SpdmStatus Unit)
    (nonce : Bytes)
    (respond : Bytes → Bytes)
    (common : SpdmContext)
    (measurement_attributes : SpdmMeasurementAttributes)
    (measurement_operation : SpdmMeasurementOperation)
    (record0 : SpdmMeasurementRecordStructure)
    (slot_id : Nat) : MeasurementFlowOut :=
  if SPDM_MAX_SLOT_NUMBER ≤ slot_id then
    ⟨.error .SPDM_STATUS_INVALID_STATE_LOCAL, common, record0, []⟩
  else
    let send_buffer := encode_spdm_measurement_record common
      measurement_attributes measurement_operation slot_id nonce
    let receive_buffer := respond send_buffer
    let out := handle_spdm_measurement_record_response verify errHandler
      common measurement_attributes measurement_operation record0
      send_buffer receive_buffer
    ⟨out.result, out.common, out.record, [send_buffer]⟩

/-- SpdmGetCertificateRequestPayload (spec §4.2: "{slot_id: u8, offset:
u16, length: u16}").  The type lives outside the provided sources;
modelled from the spec. -/
structure SpdmGetCertificateRequestPayload where
  slot_id : Nat
  offset : Nat
  length : Nat
deriving DecidableEq

/-- Modelled from the spec: encoding of a GET_CERTIFICATE request payload —
Param1 is the slot id, Param2 is reserved zero, then the little-endian u16
offset and length (§4.2, §6). -/
def SpdmGetCertificateRequestPayload.spdm_encode
    (p : SpdmGetCertificateRequestPayload) : Bytes :=
  [p.slot_id, 0] ++ encodeU16 p.offset ++ encodeU16 p.length

/-- SpdmCertificateResponsePayload (spec §4.2: "{slot_id, portion_length:
u16, remainder_length: u16, cert_chain: bytes[portion_length]}").  The
type lives outside the provided sources; modelled from the spec. -/
structure SpdmCertificateResponsePayload where
  slot_id : Nat
  portion_length : Nat
  remainder_length : Nat
  cert_chain : Bytes
deriving DecidableEq

/-- Modelled from the spec: decoding of a CERTIFICATE response payload —
Param1 is the slot id, Param2 is reserved, then the little-endian u16
portion and remainder lengths and exactly portion_length chain bytes. -/
def SpdmCertificateResponsePayload.spdm_read (bs : Bytes) :
    Option (SpdmCertificateResponsePayload × Bytes) :=
  match readU8 bs with
  | none => none
  | some (slot, r1) =>
    match readU8 r1 with
    | none => none
    | some (_, r2) =>
      match readU16 r2 with
      | none => none
      | some (portion, r3) =>
        match readU16 r3 with
        | none => none
        | some (remainder, r4) =>
          match readBytesN portion r4 with
          | none => none
          | some (chain, r5) =>
            some (⟨slot, portion, remainder, chain⟩, r5)

/-- Writing a portion into the peer certificate chain buffer at the given
offset (the copy_from_slice of get_certificate_req.rs); the list holds the
written prefix of the zero-initialised backing array. -/
def writeCertPortion (data : Bytes) (offset : Nat) (portion : Bytes) :
    Bytes :=
  data.take offset ++ List.replicate (offset - data.length) 0 ++ portion ++
    data.drop (offset + portion.length)

/-- The result of one round of the GET_CERTIFICATE flow
(send_receive_spdm_certificate_partial): the SpdmResult carrying
(portion_length, remainder_length), the context after the call, and the
messages written to the transport. -/
structure CertificateRoundOut where
  result : Except SpdmStatus (Nat × Nat)
  common : SpdmContext
  sent : List Bytes
deriving DecidableEq

/-- send_receive_spdm_certificate_partial of get_certificate_req.rs: emits
a GET_CERTIFICATE request under the fixed header version SpdmVersion11,
appends it to message_b, receives and decodes the CERTIFICATE response,
rejects an oversized portion (portion_length above
MAX_SPDM_CERT_PORTION_LEN, or offset + portion_length above
MAX_SPDM_CERT_CHAIN_DATA_SIZE) before copying, then copies the portion at
the offset, sets data_size to offset + portion_length and appends the
consumed response bytes to message_b.  The transport is the respond
oracle. -/
def send_receive_spdm_certificate_step (respond : Bytes → Bytes)
    (common : SpdmContext) (slot_id offset length : Nat) :
    CertificateRoundOut :=
  let send_buffer :=
    SpdmMessageHeader.encode ⟨SpdmVersion11, .SpdmRequestGetCertificate⟩ ++
      SpdmGetCertificateRequestPayload.spdm_encode ⟨slot_id, offset, length⟩
  match common.runtime_info.message_b.append_message send_buffer with
  | none => ⟨.error .ENOMEM, common, [send_buffer]⟩
  | some mb1 =>
    let common :=
      { common with runtime_info :=
        { common.runtime_info with message_b := mb1 } }
    let receive_buffer := respond send_buffer
    match SpdmMessageHeader.read receive_buffer with
    | none => ⟨.error .Eio, common, [send_buffer]⟩
    | some (message_header, rest) =>
      match message_header.request_response_code with
      | .SpdmResponseCertificate =>
        match SpdmCertificateResponsePayload.spdm_read rest with
        | none => ⟨.error .EFAULT, common, [send_buffer]⟩
        | some (certificate, rest2) =>
          let used := receive_buffer.length - rest2.length
          if MAX_SPDM_CERT_PORTION_LEN < certificate.portion_length ∨
              MAX_SPDM_CERT_CHAIN_DATA_SIZE <
                offset + certificate.portion_length then
            ⟨.error .ENOMEM, common, [send_buffer]⟩
          else
            let common :=
              { common with peer_cert_chain :=
                ⟨offset + certificate.portion_length,
                  writeCertPortion common.peer_cert_chain.data offset
                    (certificate.cert_chain.take
                      certificate.portion_length)⟩ }
            match common.runtime_info.message_b.append_message
                (receive_buffer.take used) with
            | none => ⟨.error .ENOMEM, common, [send_buffer]⟩
            | some mb2 =>
              ⟨.ok (certificate.portion_length,
                  certificate.remainder_length),
                { common with runtime_info :=
                  { common.runtime_info with message_b := mb2 } },
                [send_buffer]⟩
      | _ => ⟨.error .EINVAL, common, [send_buffer]⟩

/-- The while-loop of send_receive_spdm_certificate, with explicit fuel:
none when the fuel runs out, otherwise the SpdmResult of the flow, the
final context, and the portion lengths of the accepted rounds in order.
Each round advances the offset by the returned portion_length and sets the
next length to the remainder capped at MAX_SPDM_CERT_PORTION_LEN; the loop
exits when the length is 0, and any round error surfaces as Eio. -/
def send_receive_spdm_certificate_loop (respond : Bytes → Bytes)
    (slot_id : Nat) :
    Nat → SpdmContext → Nat → Nat →
    Option (Except SpdmStatus Unit × SpdmContext × List Nat)
  | _, common, _, 0 => some (.ok (), common, [])
  | 0, _, _, _ + 1 => none
  | fuel + 1, common, offset, length + 1 =>
    match send_receive_spdm_certificate_step respond common slot_id
        offset (length + 1) with
    | ⟨.error _, common2, _⟩ => some (.error .Eio, common2, [])
    | ⟨.ok (portion_length, remainder_length), common2, _⟩ =>
      match send_receive_spdm_certificate_loop respond slot_id fuel common2
          (offset + portion_length)
          (min remainder_length MAX_SPDM_CERT_PORTION_LEN) with
      | none => none
      | some (res, common3, portions) =>
        some (res, common3, portion_length :: portions)

/-- send_receive_spdm_certificate of get_certificate_req.rs, up to the
point where the full chain has been assembled (the subsequent pinned-chain
verification consults the crypto façade and is outside the properties
verified here): the loop starting at offset 0 with length
MAX_SPDM_CERT_PORTION_LEN. -/
def send_receive_spdm_certificate (respond : Bytes → Bytes)
    (fuel : Nat) (common : SpdmContext) (slot_id : Nat) :
    Option (Except SpdmStatus Unit × SpdmContext × List Nat) :=
  send_receive_spdm_certificate_loop respond slot_id fuel common 0
    MAX_SPDM_CERT_PORTION_LEN

/-! Soundness and inversion lemmas for the codec primitives. -/

theorem readBytesN_eq_some {n : Nat} {bs xs rest : Bytes}
    (h : readBytesN n bs = some (xs, rest)) :
    bs = xs ++ rest ∧ xs.length = n := by
  induction n generalizing bs xs with
  | zero =>
    simp only [readBytesN] at h
    cases h
    simp
  | succ n ih =>
    cases bs with
    | nil => simp [readBytesN] at h
    | cons b rest' =>
      simp only [readBytesN] at h
      cases hrec : readBytesN n rest' with
      | none => rw [hrec] at h; simp at h
      | some pr =>
        obtain ⟨ys, r⟩ := pr
        rw [hrec] at h
        simp only [Option.some.injEq, Prod.mk.injEq] at h
        obtain ⟨h1, h2⟩ := h
        subst h2
        obtain ⟨he, hl⟩ := ih hrec
        refine ⟨?_, ?_⟩ <;> simp [← h1, he, hl]

theorem readBytesN_append {xs rest : Bytes} :
    readBytesN xs.length (xs ++ rest) = some (xs, rest) := by
  induction xs with
  | nil => simp [readBytesN]
  | cons b t ih => simp [readBytesN, ih]

theorem readU8_eq_some {bs rest : Bytes} {v : Nat}
    (h : readU8 bs = some (v, rest)) : bs = v :: rest := by
  cases bs with
  | nil => simp [readU8] at h
  | cons b t =>
    simp only [readU8, Option.some.injEq, Prod.mk.injEq] at h
    obtain ⟨h1, h2⟩ := h
    subst h1 h2
    rfl

theorem readU16_eq_some {bs rest : Bytes} {v : Nat}
    (h : readU16 bs = some (v, rest)) :
    ∃ a b, bs = a :: b :: rest ∧ v = a + 256 * b := by
  match bs with
  | [] => simp [readU16] at h
  | [a] => simp [readU16] at h
  | a :: b :: t =>
    simp only [readU16, Option.some.injEq, Prod.mk.injEq] at h
    obtain ⟨h1, h2⟩ := h
    subst h1 h2
    exact ⟨a, b, rfl, rfl⟩

theorem readU16_encodeU16 {n : Nat} {rest : Bytes} (h : n < 65536) :
    readU16 (encodeU16 n ++ rest) = some (n, rest) := by
  simp only [encodeU16, readU16, List.cons_append, List.nil_append,
    Option.some.injEq, Prod.mk.injEq]
  exact ⟨by omega, trivial⟩

theorem readU24_encodeU24 {n : Nat} {rest : Bytes} (h : n < 16777216) :
    readU24 (encodeU24 n ++ rest) = some (n, rest) := by
  simp only [encodeU24, readU24, List.cons_append, List.nil_append,
    Option.some.injEq, Prod.mk.injEq]
  exact ⟨by omega, trivial⟩

theorem attributes_from_bits_bits (a : SpdmMeasurementAttributes) :
    SpdmMeasurementAttributes.from_bits a.bits = some a := by
  obtain ⟨s, r⟩ := a
  cases s <;> cases r <;> decide

theorem attributes_read_encode {a : SpdmMeasurementAttributes}
    {rest : Bytes} :
    SpdmMeasurementAttributes.read (a.bits :: rest) = some (a, rest) := by
  simp [SpdmMeasurementAttributes.read, readU8, attributes_from_bits_bits]

theorem nonce_read_append {n : SpdmNonceStruct} {rest : Bytes}
    (h : n.data.length = SPDM_NONCE_SIZE) :
    SpdmNonceStruct.read (n.data ++ rest) = some (n, rest) := by
  have := @readBytesN_append n.data rest
  rw [h] at this
  simp [SpdmNonceStruct.read, this]

theorem record_read_encode {r : SpdmMeasurementRecordStructure}
    {rest : Bytes}
    (hlen : r.measurement_record_data.length = r.measurement_record_length)
    (hcap : r.measurement_record_length < 16777216) :
    SpdmMeasurementRecordStructure.spdm_read (r.spdm_encode ++ rest) =
      some (r, rest) := by
  obtain ⟨nob, len, data⟩ := r
  simp only at hlen hcap
  have hb : readBytesN len (data ++ rest) = some (data, rest) := by
    have := @readBytesN_append data rest
    rw [hlen] at this
    exact this
  simp [SpdmMeasurementRecordStructure.spdm_encode,
    SpdmMeasurementRecordStructure.spdm_read, readU8,
    List.append_assoc, readU24_encodeU24 hcap, hb]

theorem opaque_read_encode {o : SpdmOpaqueStruct} {rest : Bytes}
    (hlen : o.data.length = o.data_size) (hcap : o.data_size < 65536) :
    SpdmOpaqueStruct.spdm_read (o.spdm_encode ++ rest) = some (o, rest) := by
  obtain ⟨sz, data⟩ := o
  simp only at hlen hcap
  have hb : readBytesN sz (data ++ rest) = some (data, rest) := by
    have := @readBytesN_append data rest
    rw [hlen] at this
    exact this
  simp [SpdmOpaqueStruct.spdm_encode, SpdmOpaqueStruct.spdm_read,
    List.append_assoc, readU16_encodeU16 hcap, hb]

theorem signature_read_encode {s : SpdmSignatureStruct} {asymSize : Nat}
    {rest : Bytes} (hlen : s.data.length = asymSize)
    (hsz : s.data_size = asymSize) :
    SpdmSignatureStruct.spdm_read asymSize (s.spdm_encode ++ rest) =
      some (s, rest) := by
  obtain ⟨sz, data⟩ := s
  simp only at hlen hsz
  subst hsz hlen
  simp [SpdmSignatureStruct.spdm_read, SpdmSignatureStruct.spdm_encode,
    readBytesN_append]

theorem header_read_eq_some {bs rest : Bytes} {h : SpdmMessageHeader}
    (hr : SpdmMessageHeader.read bs = some (h, rest)) :
    ∃ b, bs = h.version :: b :: rest ∧
      h.request_response_code = SpdmRequestResponseCode.ofByte b := by
  match bs with
  | [] => simp [SpdmMessageHeader.read, readU8] at hr
  | [a] => simp [SpdmMessageHeader.read, readU8] at hr
  | a :: b :: t =>
    simp only [SpdmMessageHeader.read, readU8, Option.some.injEq,
      Prod.mk.injEq] at hr
    obtain ⟨h1, h2⟩ := hr
    subst h2
    exact ⟨b, by rw [← h1], by rw [← h1]⟩

theorem land_lor_slot {s : Nat} (h : s < 16)
    (c : SpdmMeasurementContentChanged) :
    Nat.land (Nat.lor s c.bits) MEASUREMENT_RESPONDER_PARAM2_SLOT_ID_MASK =
      s := by
  cases c <;> revert s <;> decide

theorem land_lor_cc {s : Nat} (h : s < 16)
    (c : SpdmMeasurementContentChanged) :
    Nat.land (Nat.lor s c.bits)
      MEASUREMENT_RESPONDER_PARAM2_CONTENT_CHANGED_MASK = c.bits := by
  cases c <;> revert s <;> decide

theorem land_slot_id {s : Nat} (h : s < 16) :
    Nat.land s MEASUREMENT_RESPONDER_PARAM2_SLOT_ID_MASK = s := by
  revert s; decide

theorem land_cc_zero {s : Nat} (h : s < 16) :
    Nat.land s MEASUREMENT_RESPONDER_PARAM2_CONTENT_CHANGED_MASK = 0 := by
  revert s; decide

theorem cc_from_bits_bits (c : SpdmMeasurementContentChanged) :
    SpdmMeasurementContentChanged.from_bits c.bits = some c := by
  cases c <;> decide

/-- An SpdmGetMeasurementsRequestPayload is round-trip well formed when its
nonce has the fixed 32-byte size, its operation byte decodes back to the
same variant (the Unknown variant does not hold a known value), and — since
the wire drops the nonce and the slot when no signature is requested — the
dropped fields hold their decode defaults in that case. -/
def SpdmGetMeasurementsRequestPayload.wf
    (p : SpdmGetMeasurementsRequestPayload) : Prop :=
  p.nonce.data.length = SPDM_NONCE_SIZE ∧
  SpdmMeasurementOperation.ofByte p.measurement_operation.get_u8 =
    p.measurement_operation ∧
  (p.measurement_attributes.signature_requested = false →
    p.nonce = SpdmNonceStruct.default ∧ p.slot_id = 0)

/-- An SpdmMeasurementsResponsePayload is round-trip well formed in a
context when every length tag matches its data and fits its wire width,
the slot id fits its four Param2 bits, number_of_measurement is not the
value 1 (which the encoder rewrites to 0), content_changed is carried by
the wire only in the packing context and holds its default elsewhere, and
the signature is carried (with the negotiated size) exactly when the
context requests one. -/
def SpdmMeasurementsResponsePayload.wf (context : SpdmContext)
    (p : SpdmMeasurementsResponsePayload) : Prop :=
  p.number_of_measurement ≠ 1 ∧
  p.slot_id < 16 ∧
  (¬(context.negotiate_info.spdm_version_sel = SpdmVersion12 ∧
      context.config_info.runtime_content_change_support = true) →
    p.content_changed = .NOT_SUPPORTED) ∧
  p.measurement_record.measurement_record_data.length =
    p.measurement_record.measurement_record_length ∧
  p.measurement_record.measurement_record_length < 16777216 ∧
  p.nonce.data.length = SPDM_NONCE_SIZE ∧
  p.opaque_data.data.length = p.opaque_data.data_size ∧
  p.opaque_data.data_size < 65536 ∧
  (if context.runtime_info.need_measurement_signature then
    p.signature.data_size = context.negotiate_info.base_asym_size ∧
      p.signature.data.length = context.negotiate_info.base_asym_size
  else p.signature = SpdmSignatureStruct.default)

/-- The GET_MEASUREMENTS request of the repository's own codec test
(measurement.rs, test_case1): SIGNATURE_REQUESTED cleared while the nonce
bytes are 100 and the slot id is 0xAA. -/
def c1CounterexampleRequest : SpdmGetMeasurementsRequestPayload :=
  ⟨⟨false, false⟩, .SpdmMeasurementQueryTotalNumber,
    ⟨List.replicate 32 100⟩, 0xAA⟩

/-- C1, counterexample: the claim quantifies over every payload, but a
GET_MEASUREMENTS request whose SIGNATURE_REQUESTED attribute is cleared
loses its nonce and slot id on the wire — decoding its encoding yields the
zeroed defaults, not a structurally equal payload.  This is the repository's
own test vector test_case1 of measurement.rs, whose decode asserts slot 0
and a zero nonce. -/
theorem C1_roundtrip_counterexample :
    (SpdmGetMeasurementsRequestPayload.spdm_read
        c1CounterexampleRequest.spdm_encode).map Prod.fst ≠
      some c1CounterexampleRequest := by
  decide

/-- C1, amended: encode followed by decode in the same context is the
identity for every round-trip well formed payload — for the
GET_MEASUREMENTS request this adds that the dropped nonce and slot hold
their defaults when no signature is requested, and for the MEASUREMENTS
response that number_of_measurement is not 1, the slot fits four bits,
content_changed is NotSupported outside the version-1.2 packing context,
the length tags match, and the signature is sized by the negotiated
algorithm exactly when the context requests one. -/
theorem C1_roundtrip_amended :
    (∀ p : SpdmGetMeasurementsRequestPayload, p.wf →
      SpdmGetMeasurementsRequestPayload.spdm_read p.spdm_encode =
        some (p, [])) ∧
    (∀ (context : SpdmContext) (p : SpdmMeasurementsResponsePayload),
      p.wf context →
      SpdmMeasurementsResponsePayload.spdm_read context
        (p.spdm_encode context) = some (p, [])) := by
  constructor
  · rintro p ⟨hn, hop, hdef⟩
    obtain ⟨attrs, op, nonce, slot⟩ := p
    simp only at hn hop hdef
    cases hsig : attrs.signature_requested with
    | false =>
      obtain ⟨hnd, hs⟩ := hdef hsig
      simp [SpdmGetMeasurementsRequestPayload.spdm_encode,
        SpdmGetMeasurementsRequestPayload.spdm_read,
        attributes_read_encode, readU8, hsig, hop, hnd, hs]
    | true =>
      have hnonce :
          SpdmNonceStruct.read (nonce.data ++ [slot]) =
            some (nonce, [slot]) := nonce_read_append hn
      simp [SpdmGetMeasurementsRequestPayload.spdm_encode,
        SpdmGetMeasurementsRequestPayload.spdm_read,
        attributes_read_encode, readU8, hsig, hnonce, hop]
  · rintro context p
      ⟨hnom, hslot, hccd, hrl, hrc, hn, hol, hoc, hsig⟩
    obtain ⟨nom, cc, slot, rec, nonce, opq, sig⟩ := p
    simp only at hnom hslot hccd hrl hrc hn hol hoc hsig
    simp only [SpdmMeasurementsResponsePayload.spdm_encode]
    rw [if_neg hnom]
    by_cases hpack :
        context.negotiate_info.spdm_version_sel = SpdmVersion12 ∧
          context.config_info.runtime_content_change_support = true
    · rw [if_pos hpack]
      cases hns : context.runtime_info.need_measurement_signature with
      | false =>
        rw [hns] at hsig
        simp only [if_neg Bool.false_ne_true] at hsig
        have hopq := @opaque_read_encode opq [] hol hoc
        rw [List.append_nil] at hopq
        simp [SpdmMeasurementsResponsePayload.spdm_read, readU8,
          land_lor_cc hslot, land_lor_slot hslot, cc_from_bits_bits,
          record_read_encode hrl hrc, nonce_read_append hn,
          hopq, hns, hsig]
      | true =>
        rw [hns] at hsig
        simp only [if_pos rfl] at hsig
        have hsg := @signature_read_encode sig
          context.negotiate_info.base_asym_size [] hsig.2 hsig.1
        rw [List.append_nil] at hsg
        simp [SpdmMeasurementsResponsePayload.spdm_read, readU8,
          land_lor_cc hslot, land_lor_slot hslot, cc_from_bits_bits,
          record_read_encode hrl hrc, nonce_read_append hn,
          opaque_read_encode hol hoc, hns, hsg]
    · have hcc : cc = .NOT_SUPPORTED := hccd hpack
      rw [if_neg hpack]
      cases hns : context.runtime_info.need_measurement_signature with
      | false =>
        rw [hns] at hsig
        simp only [if_neg Bool.false_ne_true] at hsig
        have hopq := @opaque_read_encode opq [] hol hoc
        rw [List.append_nil] at hopq
        simp [SpdmMeasurementsResponsePayload.spdm_read, readU8,
          land_cc_zero hslot, land_slot_id hslot,
          show SpdmMeasurementContentChanged.from_bits 0 =
            some .NOT_SUPPORTED from rfl,
          record_read_encode hrl hrc, nonce_read_append hn,
          hopq, hns, hsig, hcc]
      | true =>
        rw [hns] at hsig
        simp only [if_pos rfl] at hsig
        have hsg := @signature_read_encode sig
          context.negotiate_info.base_asym_size [] hsig.2 hsig.1
        rw [List.append_nil] at hsg
        simp [SpdmMeasurementsResponsePayload.spdm_read, readU8,
          land_cc_zero hslot, land_slot_id hslot,
          show SpdmMeasurementContentChanged.from_bits 0 =
            some .NOT_SUPPORTED from rfl,
          record_read_encode hrl hrc, nonce_read_append hn,
          opaque_read_encode hol hoc, hns, hcc, hsg]

/-- C1, witness for the amended round trip: the repository's test vectors
(test_case0 of measurement.rs for the request; a response under SPDM 1.2
with packing enabled and a signature requested). -/
theorem C1_roundtrip_amended_witness :
    (SpdmGetMeasurementsRequestPayload.wf
      ⟨⟨true, false⟩, .SpdmMeasurementQueryTotalNumber,
        ⟨List.replicate 32 100⟩, 0xAA⟩ ∧
      SpdmGetMeasurementsRequestPayload.spdm_read
        (SpdmGetMeasurementsRequestPayload.spdm_encode
          ⟨⟨true, false⟩, .SpdmMeasurementQueryTotalNumber,
            ⟨List.replicate 32 100⟩, 0xAA⟩) =
        some (⟨⟨true, false⟩, .SpdmMeasurementQueryTotalNumber,
          ⟨List.replicate 32 100⟩, 0xAA⟩, [])) ∧
    (SpdmMeasurementsResponsePayload.wf
      ⟨⟨true⟩, ⟨0x12, 2, 48⟩, ⟨true, .NOT_SUPPORTED, ⟨64, []⟩, ⟨64, []⟩⟩,
        ⟨0, []⟩⟩
      ⟨5, .DETECTED_CHANGE, 7, ⟨1, 2, [7, 8]⟩, ⟨List.replicate 32 9⟩,
        ⟨1, [4]⟩, ⟨2, [6, 6]⟩⟩ ∧
      SpdmMeasurementsResponsePayload.spdm_read
        ⟨⟨true⟩, ⟨0x12, 2, 48⟩, ⟨true, .NOT_SUPPORTED, ⟨64, []⟩, ⟨64, []⟩⟩,
          ⟨0, []⟩⟩
        (SpdmMeasurementsResponsePayload.spdm_encode
          ⟨⟨true⟩, ⟨0x12, 2, 48⟩,
            ⟨true, .NOT_SUPPORTED, ⟨64, []⟩, ⟨64, []⟩⟩, ⟨0, []⟩⟩
          ⟨5, .DETECTED_CHANGE, 7, ⟨1, 2, [7, 8]⟩, ⟨List.replicate 32 9⟩,
            ⟨1, [4]⟩, ⟨2, [6, 6]⟩⟩) =
        some (⟨5, .DETECTED_CHANGE, 7, ⟨1, 2, [7, 8]⟩,
          ⟨List.replicate 32 9⟩, ⟨1, [4]⟩, ⟨2, [6, 6]⟩⟩, [])) := by
  have h1 : SpdmGetMeasurementsRequestPayload.wf
      ⟨⟨true, false⟩, .SpdmMeasurementQueryTotalNumber,
        ⟨List.replicate 32 100⟩, 0xAA⟩ := by
    unfold SpdmGetMeasurementsRequestPayload.wf
    decide
  have h2 : SpdmMeasurementsResponsePayload.wf
      ⟨⟨true⟩, ⟨0x12, 2, 48⟩, ⟨true, .NOT_SUPPORTED, ⟨64, []⟩, ⟨64, []⟩⟩,
        ⟨0, []⟩⟩
      ⟨5, .DETECTED_CHANGE, 7, ⟨1, 2, [7, 8]⟩, ⟨List.replicate 32 9⟩,
        ⟨1, [4]⟩, ⟨2, [6, 6]⟩⟩ := by
    unfold SpdmMeasurementsResponsePayload.wf
    decide
  exact ⟨⟨h1, C1_roundtrip_amended.1 _ h1⟩,
    ⟨h2, C1_roundtrip_amended.2 _ _ h2⟩⟩

/-- The Param2 property of the MEASUREMENTS response as the spec words it:
packing whenever the negotiated version is at least SPDM 1.2 and the config
enables runtime content change support. -/
def measurementsParam2SpecClaim : Prop :=
  ∀ (context : SpdmContext) (p : SpdmMeasurementsResponsePayload),
    (p.spdm_encode context)[1]? =
      some (if SpdmVersion12 ≤ context.negotiate_info.spdm_version_sel ∧
          context.config_info.runtime_content_change_support = true then
        Nat.lor p.slot_id p.content_changed.bits
      else p.slot_id)

/-- C4, counterexample: the encoder packs content_changed into Param2 only
when the negotiated version is exactly SpdmVersion12, not whenever it is at
least 1.2 — under a negotiated version byte 0x13 (a version above 1.2,
representable in the version type via its Unknown variant) with
runtime_content_change_support enabled, Param2 carries the slot id alone,
while the claim demands the packed byte. -/
theorem C4_param2_counterexample : ¬ measurementsParam2SpecClaim := by
  intro h
  exact absurd
    (h ⟨⟨true⟩, ⟨0x13, 2, 48⟩,
        ⟨false, .NOT_SUPPORTED, ⟨0, []⟩, ⟨0, []⟩⟩, ⟨0, []⟩⟩
      ⟨0, .DETECTED_CHANGE, 7, ⟨0, 0, []⟩, ⟨[]⟩, ⟨0, []⟩, ⟨0, []⟩⟩)
    (by decide)

/-- C4, amended: Param2 of the encoded MEASUREMENTS response is the bitwise
or of slot_id and the content_changed bits exactly when the negotiated
version equals SpdmVersion12 and the config enables
runtime_content_change_support, and slot_id alone (zero content_changed
bits) in every other context. -/
theorem C4_param2_amended (context : SpdmContext)
    (p : SpdmMeasurementsResponsePayload) :
    (p.spdm_encode context)[1]? =
      some (if context.negotiate_info.spdm_version_sel = SpdmVersion12 ∧
          context.config_info.runtime_content_change_support = true then
        Nat.lor p.slot_id p.content_changed.bits
      else p.slot_id) := by
  simp only [SpdmMeasurementsResponsePayload.spdm_encode]
  by_cases hpack :
      context.negotiate_info.spdm_version_sel = SpdmVersion12 ∧
        context.config_info.runtime_content_change_support = true
  all_goals by_cases hnom : p.number_of_measurement = 1
  all_goals simp [hpack, hnom]

/-- C5: Param1 of the encoded MEASUREMENTS response is the byte 0 when
number_of_measurement is 1, and number_of_measurement itself for every
other value. -/
theorem C5_param1_rewrite (context : SpdmContext)
    (p : SpdmMeasurementsResponsePayload) :
    (p.spdm_encode context)[0]? =
      some (if p.number_of_measurement = 1 then 0
      else p.number_of_measurement) := by
  simp only [SpdmMeasurementsResponsePayload.spdm_encode]
  by_cases hnom : p.number_of_measurement = 1
  all_goals simp [hnom]

/-- C7: a GET_MEASUREMENTS request without SIGNATURE_REQUESTED encodes to
exactly the two bytes attributes and operation, whatever its nonce and
slot id hold, and decoding that encoding yields the zeroed default nonce
and slot id 0. -/
theorem C7_no_signature_two_bytes (p : SpdmGetMeasurementsRequestPayload)
    (hsig : p.measurement_attributes.signature_requested = false) :
    p.spdm_encode =
      [p.measurement_attributes.bits, p.measurement_operation.get_u8] ∧
    SpdmGetMeasurementsRequestPayload.spdm_read p.spdm_encode =
      some (⟨p.measurement_attributes,
        SpdmMeasurementOperation.ofByte p.measurement_operation.get_u8,
        SpdmNonceStruct.default, 0⟩, []) := by
  constructor
  · simp [SpdmGetMeasurementsRequestPayload.spdm_encode, hsig]
  · simp [SpdmGetMeasurementsRequestPayload.spdm_encode,
      SpdmGetMeasurementsRequestPayload.spdm_read,
      attributes_read_encode, readU8, hsig]

/-- C7, witness: the two-byte encoding at a concrete request whose nonce
bytes are 5 and slot id is 3 with RAW_BIT_STREAM_REQUESTED set. -/
theorem C7_no_signature_two_bytes_witness :
    SpdmGetMeasurementsRequestPayload.spdm_encode
      ⟨⟨false, true⟩, .SpdmMeasurementRequestAll,
        ⟨List.replicate 32 5⟩, 3⟩ = [2, 0xFF] ∧
    SpdmGetMeasurementsRequestPayload.spdm_read
      (SpdmGetMeasurementsRequestPayload.spdm_encode
        ⟨⟨false, true⟩, .SpdmMeasurementRequestAll,
          ⟨List.replicate 32 5⟩, 3⟩) =
      some (⟨⟨false, true⟩, .SpdmMeasurementRequestAll,
        SpdmNonceStruct.default, 0⟩, []) := by
  have h := C7_no_signature_two_bytes
    ⟨⟨false, true⟩, .SpdmMeasurementRequestAll,
      ⟨List.replicate 32 5⟩, 3⟩ rfl
  exact ⟨by rw [h.1]; decide, h.2⟩

/-- Shorthand for replacing the measurement transcript of a context. -/
def SpdmContext.with_message_m (c : SpdmContext) (b : ManagedBuffer) :
    SpdmContext :=
  { c with runtime_info := { c.runtime_info with message_m := b } }

/-- Shorthand for replacing the need_measurement_signature flag of a
context. -/
def SpdmContext.with_need_sig (c : SpdmContext) (b : Bool) : SpdmContext :=
  { c with runtime_info :=
    { c.runtime_info with need_measurement_signature := b } }

/-- Shorthand for replacing the content_changed field of a context. -/
def SpdmContext.with_content_changed (c : SpdmContext)
    (v : SpdmMeasurementContentChanged) : SpdmContext :=
  { c with runtime_info := { c.runtime_info with content_changed := v } }

/-- The value handle_spdm_measurement_record_response returns on success:
number_of_measurement for the QueryTotalNumber operation and the record's
number_of_blocks for every other operation. -/
def measurementsReturnValue (op : SpdmMeasurementOperation)
    (m : SpdmMeasurementsResponsePayload) : Nat :=
  match op with
  | .SpdmMeasurementQueryTotalNumber => m.number_of_measurement
  | .SpdmMeasurementRequestAll => m.measurement_record.number_of_blocks
  | _ => m.measurement_record.number_of_blocks

/-- The context after the flag overwrite and the version-gated
content_changed update of handle_spdm_measurement_record_response, before
the transcript appends. -/
def measurementContextAfter (common : SpdmContext)
    (attrs : SpdmMeasurementAttributes)
    (m : SpdmMeasurementsResponsePayload) : SpdmContext :=
  if SpdmVersion12 ≤ common.negotiate_info.spdm_version_sel then
    (common.with_need_sig attrs.signature_requested).with_content_changed
      m.content_changed
  else common.with_need_sig attrs.signature_requested

theorem handle_measurements_success
    (verify : Bytes → Bytes → Bool) (errHandler : Except SpdmStatus Unit)
    (common : SpdmContext) (attrs : SpdmMeasurementAttributes)
    (op : SpdmMeasurementOperation)
    (record0 : SpdmMeasurementRecordStructure) (send recv : Bytes)
    (hdr : SpdmMessageHeader) (rest : Bytes)
    (m : SpdmMeasurementsResponsePayload) (rest2 : Bytes)
    (mm1 mm2 : ManagedBuffer)
    (hread : SpdmMessageHeader.read recv = some (hdr, rest))
    (hver : hdr.version = common.negotiate_info.spdm_version_sel)
    (hcode : hdr.request_response_code = .SpdmResponseMeasurements)
    (hm : SpdmMeasurementsResponsePayload.spdm_read
      { common with runtime_info := { common.runtime_info with
          need_measurement_signature := attrs.signature_requested } } rest =
      some (m, rest2))
    (happ1 : common.runtime_info.message_m.append_message send = some mm1)
    (happ2 : mm1.append_message (recv.take (recv.length - rest2.length -
      (if attrs.signature_requested then
        common.negotiate_info.base_asym_size else 0))) = some mm2) :
    handle_spdm_measurement_record_response verify errHandler common attrs
      op record0 send recv =
      if attrs.signature_requested then
        if verify mm2.data m.signature.data then
          ⟨.ok (measurementsReturnValue op m),
            (measurementContextAfter common attrs m).with_message_m
              mm2.reset_message,
            m.measurement_record⟩
        else
          ⟨.error .SPDM_STATUS_VERIF_FAIL,
            (measurementContextAfter common attrs m).with_message_m
              mm2.reset_message,
            record0⟩
      else
        ⟨.ok (measurementsReturnValue op m),
          (measurementContextAfter common attrs m).with_message_m mm2,
          m.measurement_record⟩ := by
  obtain ⟨hv, hc⟩ := hdr
  simp only at hver hcode
  subst hver hcode
  unfold handle_spdm_measurement_record_response
  rw [hread]
  simp only [ne_eq, not_true_eq_false, if_false, ite_false,
    if_neg (fun h : ¬ common.negotiate_info.spdm_version_sel =
      common.negotiate_info.spdm_version_sel => h rfl)]
  rw [hm]
  simp only [measurementContextAfter, SpdmContext.with_need_sig,
    SpdmContext.with_content_changed, SpdmContext.with_message_m,
    measurementsReturnValue]
  by_cases hv12 : SpdmVersion12 ≤ common.negotiate_info.spdm_version_sel
  · simp only [if_pos hv12]
    simp only [happ1]
    simp only [happ2]
  · simp only [if_neg hv12]
    simp only [happ1]
    simp only [happ2]

theorem readU24_eq_some {bs rest : Bytes} {v : Nat}
    (h : readU24 bs = some (v, rest)) :
    ∃ a b c, bs = a :: b :: c :: rest := by
  match bs with
  | [] => simp [readU24] at h
  | [a] => simp [readU24] at h
  | [a, b] => simp [readU24] at h
  | a :: b :: c :: t =>
    simp only [readU24, Option.some.injEq, Prod.mk.injEq] at h
    exact ⟨a, b, c, by rw [h.2]⟩

theorem record_read_suffix {bs rest : Bytes}
    {r : SpdmMeasurementRecordStructure}
    (h : SpdmMeasurementRecordStructure.spdm_read bs = some (r, rest)) :
    ∃ c, bs = c ++ rest := by
  unfold SpdmMeasurementRecordStructure.spdm_read at h
  cases h1 : readU8 bs with
  | none => simp only [h1] at h; simp at h
  | some pr1 =>
    obtain ⟨nob, r1⟩ := pr1
    simp only [h1] at h
    cases h2 : readU24 r1 with
    | none => simp only [h2] at h; simp at h
    | some pr2 =>
      obtain ⟨len, r2⟩ := pr2
      simp only [h2] at h
      cases h3 : readBytesN len r2 with
      | none => simp only [h3] at h; simp at h
      | some pr3 =>
        obtain ⟨xs, r3⟩ := pr3
        simp only [h3] at h
        simp only [Option.some.injEq, Prod.mk.injEq] at h
        obtain ⟨a, b, c, hr1⟩ := readU24_eq_some h2
        obtain ⟨hr2, _⟩ := readBytesN_eq_some h3
        refine ⟨nob :: a :: b :: c :: xs, ?_⟩
        rw [readU8_eq_some h1, hr1, hr2, ← h.2]
        simp

theorem opaque_read_suffix {bs rest : Bytes} {o : SpdmOpaqueStruct}
    (h : SpdmOpaqueStruct.spdm_read bs = some (o, rest)) :
    ∃ c, bs = c ++ rest := by
  unfold SpdmOpaqueStruct.spdm_read at h
  cases h1 : readU16 bs with
  | none => simp only [h1] at h; simp at h
  | some pr1 =>
    obtain ⟨sz, r1⟩ := pr1
    simp only [h1] at h
    cases h2 : readBytesN sz r1 with
    | none => simp only [h2] at h; simp at h
    | some pr2 =>
      obtain ⟨xs, r2⟩ := pr2
      simp only [h2] at h
      simp only [Option.some.injEq, Prod.mk.injEq] at h
      obtain ⟨a, b, hr1, _⟩ := readU16_eq_some h1
      obtain ⟨hr2, _⟩ := readBytesN_eq_some h2
      refine ⟨a :: b :: xs, ?_⟩
      rw [hr1, hr2, ← h.2]
      simp

/-- When a MEASUREMENTS response is decoded in a context that requests a
signature, the consumed payload bytes end in exactly the signature bytes,
whose number is the negotiated asymmetric key size. -/
theorem response_read_signature_decomp {context : SpdmContext}
    {bs rest : Bytes} {m : SpdmMeasurementsResponsePayload}
    (hns : context.runtime_info.need_measurement_signature = true)
    (h : SpdmMeasurementsResponsePayload.spdm_read context bs =
      some (m, rest)) :
    ∃ c, bs = c ++ m.signature.data ++ rest ∧
      m.signature.data.length = context.negotiate_info.base_asym_size := by
  unfold SpdmMeasurementsResponsePayload.spdm_read at h
  cases h1 : readU8 bs with
  | none => simp only [h1] at h; simp at h
  | some pr1 =>
    obtain ⟨nom, r1⟩ := pr1
    simp only [h1] at h
    cases h2 : readU8 r1 with
    | none => simp only [h2] at h; simp at h
    | some pr2 =>
      obtain ⟨param2, r2⟩ := pr2
      simp only [h2] at h
      cases h3 : SpdmMeasurementContentChanged.from_bits
          (Nat.land param2
            MEASUREMENT_RESPONDER_PARAM2_CONTENT_CHANGED_MASK) with
      | none => simp only [h3] at h; simp at h
      | some cc =>
        simp only [h3] at h
        cases h4 : SpdmMeasurementRecordStructure.spdm_read r2 with
        | none => simp only [h4] at h; simp at h
        | some pr4 =>
          obtain ⟨rec, r3⟩ := pr4
          simp only [h4] at h
          cases h5 : SpdmNonceStruct.read r3 with
          | none => simp only [h5] at h; simp at h
          | some pr5 =>
            obtain ⟨nonce, r4⟩ := pr5
            simp only [h5] at h
            cases h6 : SpdmOpaqueStruct.spdm_read r4 with
            | none => simp only [h6] at h; simp at h
            | some pr6 =>
              obtain ⟨opq, r5⟩ := pr6
              simp only [h6, hns] at h
              cases h7 : SpdmSignatureStruct.spdm_read
                  context.negotiate_info.base_asym_size r5 with
              | none => simp only [h7] at h; simp at h
              | some pr7 =>
                obtain ⟨sig, r6⟩ := pr7
                simp only [h7, Option.some.injEq, Prod.mk.injEq] at h
                obtain ⟨hm, hrest⟩ := h
                unfold SpdmSignatureStruct.spdm_read at h7
                cases h8 : readBytesN
                    context.negotiate_info.base_asym_size r5 with
                | none => simp only [h8] at h7; simp at h7
                | some pr8 =>
                  obtain ⟨xs, r7⟩ := pr8
                  simp only [h8, Option.some.injEq, Prod.mk.injEq] at h7
                  obtain ⟨hsig, hr7⟩ := h7
                  obtain ⟨hr5, hxs⟩ := readBytesN_eq_some h8
                  obtain ⟨crec, hcrec⟩ := record_read_suffix h4
                  obtain ⟨copq, hcopq⟩ := opaque_read_suffix h6
                  have hnon : SpdmNonceStruct.read r3 =
                      some (nonce, r4) := h5
                  unfold SpdmNonceStruct.read at hnon
                  cases h9 : readBytesN SPDM_NONCE_SIZE r3 with
                  | none => simp only [h9] at hnon; simp at hnon
                  | some pr9 =>
                    obtain ⟨ys, r8⟩ := pr9
                    simp only [h9, Option.some.injEq, Prod.mk.injEq]
                      at hnon
                    obtain ⟨hr3, hr8⟩ := readBytesN_eq_some h9
                    refine ⟨nom :: param2 :: (crec ++ (ys ++ copq)),
                      ?_, ?_⟩
                    · rw [readU8_eq_some h1, readU8_eq_some h2, hcrec, hr3,
                        hnon.2, hcopq, hr5, hr7]
                      simp only [← hsig]
                      simp [List.append_assoc]
                    · simp only [← hsig]
                      exact hxs

theorem append_message_data {b b' : ManagedBuffer} {xs : Bytes}
    (h : b.append_message xs = some b') : b'.data = b.data ++ xs := by
  unfold ManagedBuffer.append_message at h
  split at h
  · cases h; rfl
  · cases h

theorem take_strip_suffix {pre sig rest2 : Bytes} {asym : Nat}
    (hlen : sig.length = asym) :
    (pre ++ sig ++ rest2).take ((pre ++ sig ++ rest2).length -
        rest2.length) = pre ++ sig ∧
    (pre ++ sig ++ rest2).take ((pre ++ sig ++ rest2).length -
        rest2.length - asym) = pre := by
  constructor
  · have h1 : (pre ++ sig ++ rest2).length - rest2.length =
        (pre ++ sig).length := by simp; omega
    rw [h1, List.append_assoc pre sig rest2, ← List.append_assoc]
    exact List.take_left _ _
  · have h1 : (pre ++ sig ++ rest2).length - rest2.length - asym =
        pre.length := by simp [hlen]; omega
    rw [h1, List.append_assoc]
    exact List.take_left _ _

/-- C10: handle_spdm_measurement_record_response overwrites
runtime_info.need_measurement_signature with the SIGNATURE_REQUESTED
attribute before any validation, so after every call — every branch,
including every error return — the flag equals the attribute of the
attempted request. -/
theorem C10_need_signature_overwritten (verify : Bytes → Bytes → Bool)
    (errHandler : Except SpdmStatus Unit) (common : SpdmContext)
    (attrs : SpdmMeasurementAttributes) (op : SpdmMeasurementOperation)
    (record0 : SpdmMeasurementRecordStructure) (send recv : Bytes) :
    (handle_spdm_measurement_record_response verify errHandler common attrs
        op record0 send
        recv).common.runtime_info.need_measurement_signature =
      attrs.signature_requested := by
  unfold handle_spdm_measurement_record_response
  dsimp only
  repeat' split <;> try rfl

/-- C2: on a decoded MEASUREMENTS response with SIGNATURE_REQUESTED set
(and the transcript appends succeeding), the handler resets message_m for
the addressed session in both verification outcomes, returns
SPDM_STATUS_VERIF_FAIL when verification fails, and returns the
measurement count when it succeeds. -/
theorem C2_signature_verification_transactional
    (verify : Bytes → Bytes → Bool) (errHandler : Except SpdmStatus Unit)
    (common : SpdmContext) (attrs : SpdmMeasurementAttributes)
    (op : SpdmMeasurementOperation)
    (record0 : SpdmMeasurementRecordStructure) (send recv : Bytes)
    (hdr : SpdmMessageHeader) (rest : Bytes)
    (m : SpdmMeasurementsResponsePayload) (rest2 : Bytes)
    (mm1 mm2 : ManagedBuffer)
    (hattr : attrs.signature_requested = true)
    (hread : SpdmMessageHeader.read recv = some (hdr, rest))
    (hver : hdr.version = common.negotiate_info.spdm_version_sel)
    (hcode : hdr.request_response_code = .SpdmResponseMeasurements)
    (hm : SpdmMeasurementsResponsePayload.spdm_read
      { common with runtime_info := { common.runtime_info with
          need_measurement_signature := attrs.signature_requested } } rest =
      some (m, rest2))
    (happ1 : common.runtime_info.message_m.append_message send = some mm1)
    (happ2 : mm1.append_message (recv.take (recv.length - rest2.length -
      (if attrs.signature_requested then
        common.negotiate_info.base_asym_size else 0))) = some mm2) :
    (handle_spdm_measurement_record_response verify errHandler common attrs
        op record0 send recv).common.runtime_info.message_m.data = [] ∧
    (verify mm2.data m.signature.data = false →
      (handle_spdm_measurement_record_response verify errHandler common
        attrs op record0 send recv).result =
        .error .SPDM_STATUS_VERIF_FAIL) ∧
    (verify mm2.data m.signature.data = true →
      (handle_spdm_measurement_record_response verify errHandler common
        attrs op record0 send recv).result =
        .ok (measurementsReturnValue op m)) := by
  rw [handle_measurements_success verify errHandler common attrs op record0
    send recv hdr rest m rest2 mm1 mm2 hread hver hcode hm happ1 happ2]
  cases hvf : verify mm2.data m.signature.data <;>
    simp [hattr, hvf, SpdmContext.with_message_m,
      ManagedBuffer.reset_message]

/-- C2, witness: a concrete 47-byte MEASUREMENTS response under SPDM 1.1
with a 2-byte signature, checked through the failing-verifier branch. -/
theorem C2_signature_verification_transactional_witness :
    (handle_spdm_measurement_record_response (fun _ _ => false) (.ok ())
        ⟨⟨false⟩, ⟨0x11, 2, 48⟩,
          ⟨true, .NOT_SUPPORTED, ⟨1000, []⟩, ⟨1000, []⟩⟩, ⟨0, []⟩⟩
        ⟨true, false⟩ .SpdmMeasurementQueryTotalNumber ⟨0, 0, []⟩ [1, 2, 3]
        ([0x11, 0x60, 5, 1, 1, 0, 0, 0] ++ List.replicate 32 0 ++
          [0, 0, 9, 9])).common.runtime_info.message_m.data = [] ∧
    ((fun (_ : Bytes) (_ : Bytes) => false)
        (⟨(1000 : Nat), [1, 2, 3] ++
          ([0x11, 0x60, 5, 1, 1, 0, 0, 0] ++ List.replicate 32 0 ++
            [0, 0, 9, 9]).take 42⟩ : ManagedBuffer).data [9, 9] = false →
      (handle_spdm_measurement_record_response (fun _ _ => false) (.ok ())
        ⟨⟨false⟩, ⟨0x11, 2, 48⟩,
          ⟨true, .NOT_SUPPORTED, ⟨1000, []⟩, ⟨1000, []⟩⟩, ⟨0, []⟩⟩
        ⟨true, false⟩ .SpdmMeasurementQueryTotalNumber ⟨0, 0, []⟩ [1, 2, 3]
        ([0x11, 0x60, 5, 1, 1, 0, 0, 0] ++ List.replicate 32 0 ++
          [0, 0, 9, 9])).result = .error .SPDM_STATUS_VERIF_FAIL) ∧
    ((fun (_ : Bytes) (_ : Bytes) => false)
        (⟨(1000 : Nat), [1, 2, 3] ++
          ([0x11, 0x60, 5, 1, 1, 0, 0, 0] ++ List.replicate 32 0 ++
            [0, 0, 9, 9]).take 42⟩ : ManagedBuffer).data [9, 9] = true →
      (handle_spdm_measurement_record_response (fun _ _ => false) (.ok ())
        ⟨⟨false⟩, ⟨0x11, 2, 48⟩,
          ⟨true, .NOT_SUPPORTED, ⟨1000, []⟩, ⟨1000, []⟩⟩, ⟨0, []⟩⟩
        ⟨true, false⟩ .SpdmMeasurementQueryTotalNumber ⟨0, 0, []⟩ [1, 2, 3]
        ([0x11, 0x60, 5, 1, 1, 0, 0, 0] ++ List.replicate 32 0 ++
          [0, 0, 9, 9])).result =
        .ok (measurementsReturnValue .SpdmMeasurementQueryTotalNumber
          ⟨5, .NOT_SUPPORTED, 1, ⟨1, 0, []⟩, ⟨List.replicate 32 0⟩,
            ⟨0, []⟩, ⟨2, [9, 9]⟩⟩)) :=
  C2_signature_verification_transactional (fun _ _ => false) (.ok ())
    ⟨⟨false⟩, ⟨0x11, 2, 48⟩,
      ⟨true, .NOT_SUPPORTED, ⟨1000, []⟩, ⟨1000, []⟩⟩, ⟨0, []⟩⟩
    ⟨true, false⟩ .SpdmMeasurementQueryTotalNumber ⟨0, 0, []⟩ [1, 2, 3]
    ([0x11, 0x60, 5, 1, 1, 0, 0, 0] ++ List.replicate 32 0 ++
      [0, 0, 9, 9])
    ⟨0x11, .SpdmResponseMeasurements⟩
    ([5, 1, 1, 0, 0, 0] ++ List.replicate 32 0 ++ [0, 0, 9, 9])
    ⟨5, .NOT_SUPPORTED, 1, ⟨1, 0, []⟩, ⟨List.replicate 32 0⟩, ⟨0, []⟩,
      ⟨2, [9, 9]⟩⟩ []
    ⟨1000, [1, 2, 3]⟩
    ⟨1000, [1, 2, 3] ++
      ([0x11, 0x60, 5, 1, 1, 0, 0, 0] ++ List.replicate 32 0 ++
        [0, 0, 9, 9]).take 42⟩
    rfl (by decide) rfl rfl (by decide) (by decide) (by decide)

/-- C3: on a successfully decoded MEASUREMENTS response the handler appends
the sent request to message_m first and then the received response without
its trailing signature: with a signature requested the last
base_asym_sel.get_size() bytes of the consumed response are the signature
bytes and are omitted from the append (the verifier observes exactly the
stripped transcript), and without one the full consumed response is
appended. -/
theorem C3_transcript_excludes_signature
    (verify : Bytes → Bytes → Bool) (errHandler : Except SpdmStatus Unit)
    (common : SpdmContext) (attrs : SpdmMeasurementAttributes)
    (op : SpdmMeasurementOperation)
    (record0 : SpdmMeasurementRecordStructure) (send recv : Bytes)
    (hdr : SpdmMessageHeader) (rest : Bytes)
    (m : SpdmMeasurementsResponsePayload) (rest2 : Bytes)
    (mm1 mm2 : ManagedBuffer)
    (hread : SpdmMessageHeader.read recv = some (hdr, rest))
    (hver : hdr.version = common.negotiate_info.spdm_version_sel)
    (hcode : hdr.request_response_code = .SpdmResponseMeasurements)
    (hm : SpdmMeasurementsResponsePayload.spdm_read
      { common with runtime_info := { common.runtime_info with
          need_measurement_signature := attrs.signature_requested } } rest =
      some (m, rest2))
    (happ1 : common.runtime_info.message_m.append_message send = some mm1)
    (happ2 : mm1.append_message (recv.take (recv.length - rest2.length -
      (if attrs.signature_requested then
        common.negotiate_info.base_asym_size else 0))) = some mm2) :
    (attrs.signature_requested = false →
      (handle_spdm_measurement_record_response verify errHandler common
          attrs op record0 send
          recv).common.runtime_info.message_m.data =
        common.runtime_info.message_m.data ++ send ++
          recv.take (recv.length - rest2.length)) ∧
    (attrs.signature_requested = true →
      m.signature.data.length = common.negotiate_info.base_asym_size ∧
      recv.take (recv.length - rest2.length) =
        recv.take (recv.length - rest2.length -
          common.negotiate_info.base_asym_size) ++ m.signature.data ∧
      (handle_spdm_measurement_record_response verify errHandler common
          attrs op record0 send recv).result =
        (if verify (common.runtime_info.message_m.data ++ send ++
            recv.take (recv.length - rest2.length -
              common.negotiate_info.base_asym_size)) m.signature.data then
          .ok (measurementsReturnValue op m)
        else .error .SPDM_STATUS_VERIF_FAIL)) := by
  have hh := handle_measurements_success verify errHandler common attrs op
    record0 send recv hdr rest m rest2 mm1 mm2 hread hver hcode hm happ1
    happ2
  have h1 := append_message_data happ1
  have h2 := append_message_data happ2
  constructor
  · intro hno
    rw [hh]
    rw [hno] at h2 ⊢
    simp only [Bool.false_eq_true, if_false, ite_false]
    simp [SpdmContext.with_message_m, h2, h1]
  · intro hyes
    have hns : ({ common with runtime_info := { common.runtime_info with
        need_measurement_signature := attrs.signature_requested } } :
        SpdmContext).runtime_info.need_measurement_signature = true := hyes
    obtain ⟨c, hc, hclen⟩ := response_read_signature_decomp hns hm
    obtain ⟨b, hb, _⟩ := header_read_eq_some hread
    have hclen' : m.signature.data.length =
        common.negotiate_info.base_asym_size := hclen
    have hrecv : recv =
        (hdr.version :: b :: c) ++ m.signature.data ++ rest2 := by
      rw [hb, hc]
      simp
    have hts := @take_strip_suffix (hdr.version :: b :: c)
      m.signature.data rest2 common.negotiate_info.base_asym_size hclen'
    refine ⟨hclen', ?_, ?_⟩
    · rw [hrecv, hts.1, hts.2]
    · rw [hh]
      rw [hyes] at h2 ⊢
      simp only [if_pos rfl, ite_true]
      rw [h2, h1]
      simp only [if_true, List.append_assoc]
      split <;> rfl

/-- C3, witness: a 45-byte unsigned MEASUREMENTS response whose full
consumed bytes land in message_m after the request bytes. -/
theorem C3_transcript_excludes_signature_witness :
    (handle_spdm_measurement_record_response (fun _ _ => false) (.ok ())
        ⟨⟨false⟩, ⟨0x11, 2, 48⟩,
          ⟨false, .NOT_SUPPORTED, ⟨1000, []⟩, ⟨1000, []⟩⟩, ⟨0, []⟩⟩
        ⟨false, false⟩ .SpdmMeasurementRequestAll ⟨0, 0, []⟩ [9, 9]
        ([0x11, 0x60, 5, 3, 1, 2, 0, 0, 7, 8] ++ List.replicate 32 9 ++
          [1, 0, 4])).common.runtime_info.message_m.data =
      [9, 9] ++ ([0x11, 0x60, 5, 3, 1, 2, 0, 0, 7, 8] ++
        List.replicate 32 9 ++ [1, 0, 4]) := by
  have h := C3_transcript_excludes_signature (fun _ _ => false) (.ok ())
    ⟨⟨false⟩, ⟨0x11, 2, 48⟩,
      ⟨false, .NOT_SUPPORTED, ⟨1000, []⟩, ⟨1000, []⟩⟩, ⟨0, []⟩⟩
    ⟨false, false⟩ .SpdmMeasurementRequestAll ⟨0, 0, []⟩ [9, 9]
    ([0x11, 0x60, 5, 3, 1, 2, 0, 0, 7, 8] ++ List.replicate 32 9 ++
      [1, 0, 4])
    ⟨0x11, .SpdmResponseMeasurements⟩
    ([5, 3, 1, 2, 0, 0, 7, 8] ++ List.replicate 32 9 ++ [1, 0, 4])
    ⟨5, .NOT_SUPPORTED, 3, ⟨1, 2, [7, 8]⟩, ⟨List.replicate 32 9⟩,
      ⟨1, [4]⟩, ⟨0, []⟩⟩ []
    ⟨1000, [9, 9]⟩
    ⟨1000, [9, 9] ++ ([0x11, 0x60, 5, 3, 1, 2, 0, 0, 7, 8] ++
      List.replicate 32 9 ++ [1, 0, 4])⟩
    (by decide) rfl rfl (by decide) (by decide) (by decide)
  exact (h.1 rfl).trans (by decide)

/-- C8: a slot id at or above SPDM_MAX_SLOT_NUMBER makes
send_receive_spdm_measurement_record return SPDM_STATUS_INVALID_STATE_LOCAL
with the context and the record out-parameter unchanged and nothing written
to the transport. -/
theorem C8_slot_guard (verify : Bytes → Bytes → Bool)
    (errHandler : Except SpdmStatus Unit) (nonce : Bytes)
    (respond : Bytes → Bytes) (common : SpdmContext)
    (attrs : SpdmMeasurementAttributes) (op : SpdmMeasurementOperation)
    (record0 : SpdmMeasurementRecordStructure) (slot_id : Nat)
    (hslot : SPDM_MAX_SLOT_NUMBER ≤ slot_id) :
    send_receive_spdm_measurement_record verify errHandler nonce respond
      common attrs op record0 slot_id =
      ⟨.error .SPDM_STATUS_INVALID_STATE_LOCAL, common, record0, []⟩ := by
  unfold send_receive_spdm_measurement_record
  rw [if_pos hslot]

/-- C8, witness: slot id 8 is rejected untouched. -/
theorem C8_slot_guard_witness :
    send_receive_spdm_measurement_record (fun _ _ => true) (.ok ())
      (List.replicate 32 0) (fun _ => [])
      ⟨⟨false⟩, ⟨0x11, 2, 48⟩,
        ⟨false, .NOT_SUPPORTED, ⟨64, [1]⟩, ⟨64, [2]⟩⟩, ⟨0, []⟩⟩
      ⟨true, false⟩ .SpdmMeasurementQueryTotalNumber ⟨0, 0, []⟩ 8 =
      ⟨.error .SPDM_STATUS_INVALID_STATE_LOCAL,
        ⟨⟨false⟩, ⟨0x11, 2, 48⟩,
          ⟨false, .NOT_SUPPORTED, ⟨64, [1]⟩, ⟨64, [2]⟩⟩, ⟨0, []⟩⟩,
        ⟨0, 0, []⟩, []⟩ :=
  C8_slot_guard (fun _ _ => true) (.ok ()) (List.replicate 32 0)
    (fun _ => [])
    ⟨⟨false⟩, ⟨0x11, 2, 48⟩,
      ⟨false, .NOT_SUPPORTED, ⟨64, [1]⟩, ⟨64, [2]⟩⟩, ⟨0, []⟩⟩
    ⟨true, false⟩ .SpdmMeasurementQueryTotalNumber ⟨0, 0, []⟩ 8
    (by decide)

/-- C9: every GET_CERTIFICATE request emitted by one round of the
certificate flow starts with the fixed header version byte SpdmVersion11,
whatever the negotiated version, while the GET_MEASUREMENTS request starts
with the negotiated version byte. -/
theorem C9_certificate_fixed_header_version :
    (∀ (respond : Bytes → Bytes) (common : SpdmContext)
      (slot_id offset length : Nat),
      ∃ tail, (send_receive_spdm_certificate_step respond common slot_id
        offset length).sent = [SpdmVersion11 :: tail]) ∧
    (∀ (verify : Bytes → Bytes → Bool)
      (errHandler : Except SpdmStatus Unit) (nonce : Bytes)
      (respond : Bytes → Bytes) (common : SpdmContext)
      (attrs : SpdmMeasurementAttributes) (op : SpdmMeasurementOperation)
      (record0 : SpdmMeasurementRecordStructure) (slot_id : Nat),
      slot_id < SPDM_MAX_SLOT_NUMBER →
      ∃ tail, (send_receive_spdm_measurement_record verify errHandler nonce
        respond common attrs op record0 slot_id).sent =
        [common.negotiate_info.spdm_version_sel :: tail]) := by
  constructor
  · intro respond common slot_id offset length
    have hs : (send_receive_spdm_certificate_step respond common slot_id
        offset length).sent =
        [SpdmMessageHeader.encode
          ⟨SpdmVersion11, .SpdmRequestGetCertificate⟩ ++
          SpdmGetCertificateRequestPayload.spdm_encode
            ⟨slot_id, offset, length⟩] := by
      unfold send_receive_spdm_certificate_step
      dsimp only
      repeat' split
      all_goals rfl
    refine ⟨SpdmRequestResponseCode.SpdmRequestGetCertificate.get_u8 ::
      SpdmGetCertificateRequestPayload.spdm_encode
        ⟨slot_id, offset, length⟩, ?_⟩
    rw [hs]
    rfl
  · intro verify errHandler nonce respond common attrs op record0 slot_id
      hslot
    unfold send_receive_spdm_measurement_record
    rw [if_neg (by omega)]
    refine ⟨SpdmRequestResponseCode.SpdmRequestGetMeasurements.get_u8 ::
      SpdmGetMeasurementsRequestPayload.spdm_encode
        ⟨attrs, op, ⟨nonce⟩, slot_id⟩, ?_⟩
    rfl

/-- C9, witness: a context whose negotiated version byte is 0x13 still
emits the certificate request under version byte 0x11 while the
measurement request carries 0x13. -/
theorem C9_certificate_fixed_header_version_witness :
    (∃ tail, (send_receive_spdm_certificate_step (fun _ => [])
      ⟨⟨false⟩, ⟨0x13, 2, 48⟩,
        ⟨false, .NOT_SUPPORTED, ⟨64, []⟩, ⟨64, []⟩⟩, ⟨0, []⟩⟩
      0 0 512).sent = [SpdmVersion11 :: tail]) ∧
    (∃ tail, (send_receive_spdm_measurement_record (fun _ _ => true)
      (.ok ()) (List.replicate 32 0) (fun _ => [])
      ⟨⟨false⟩, ⟨0x13, 2, 48⟩,
        ⟨false, .NOT_SUPPORTED, ⟨64, []⟩, ⟨64, []⟩⟩, ⟨0, []⟩⟩
      ⟨true, false⟩ .SpdmMeasurementQueryTotalNumber ⟨0, 0, []⟩ 0).sent =
      [0x13 :: tail]) :=
  ⟨C9_certificate_fixed_header_version.1 (fun _ => [])
    ⟨⟨false⟩, ⟨0x13, 2, 48⟩,
      ⟨false, .NOT_SUPPORTED, ⟨64, []⟩, ⟨64, []⟩⟩, ⟨0, []⟩⟩ 0 0 512,
  C9_certificate_fixed_header_version.2 (fun _ _ => true) (.ok ())
    (List.replicate 32 0) (fun _ => [])
    ⟨⟨false⟩, ⟨0x13, 2, 48⟩,
      ⟨false, .NOT_SUPPORTED, ⟨64, []⟩, ⟨64, []⟩⟩, ⟨0, []⟩⟩
    ⟨true, false⟩ .SpdmMeasurementQueryTotalNumber ⟨0, 0, []⟩ 0
    (by decide)⟩

/-- The bytes of one GET_CERTIFICATE request as
send_receive_spdm_certificate_partial builds them. -/
def certRequestBytes (slot_id offset length : Nat) : Bytes :=
  SpdmMessageHeader.encode ⟨SpdmVersion11, .SpdmRequestGetCertificate⟩ ++
    SpdmGetCertificateRequestPayload.spdm_encode ⟨slot_id, offset, length⟩

theorem cert_step_ok_data_size {respond : Bytes → Bytes}
    {common : SpdmContext} {slot_id offset length p r : Nat}
    {c2 : SpdmContext} {sent : List Bytes}
    (h : send_receive_spdm_certificate_step respond common slot_id offset
      length = ⟨.ok (p, r), c2, sent⟩) :
    c2.peer_cert_chain.data_size = offset + p ∧
      offset + p ≤ MAX_SPDM_CERT_CHAIN_DATA_SIZE := by
  unfold send_receive_spdm_certificate_step at h
  dsimp only at h
  repeat' split at h
  all_goals simp at h
  obtain ⟨⟨hp, hr⟩, hc2, hsent⟩ := h
  subst hp
  subst hc2
  refine ⟨rfl, ?_⟩
  simp only [MAX_SPDM_CERT_PORTION_LEN, MAX_SPDM_CERT_CHAIN_DATA_SIZE]
    at *
  omega

theorem cert_loop_ok_sum (respond : Bytes → Bytes) (slot_id : Nat) :
    ∀ (fuel : Nat) (common : SpdmContext) (offset length : Nat)
      (common2 : SpdmContext) (portions : List Nat),
      send_receive_spdm_certificate_loop respond slot_id fuel common offset
        length = some (.ok (), common2, portions) →
      (portions = [] ∧ common2 = common ∧ length = 0) ∨
      (common2.peer_cert_chain.data_size = offset + portions.sum ∧
        offset + portions.sum ≤ MAX_SPDM_CERT_CHAIN_DATA_SIZE) := by
  intro fuel
  induction fuel with
  | zero =>
    intro common offset length common2 portions h
    cases length with
    | zero =>
      unfold send_receive_spdm_certificate_loop at h
      simp at h
      exact Or.inl ⟨h.2, h.1.symm, rfl⟩
    | succ n =>
      unfold send_receive_spdm_certificate_loop at h
      simp at h
  | succ fuel ih =>
    intro common offset length common2 portions h
    cases length with
    | zero =>
      unfold send_receive_spdm_certificate_loop at h
      simp at h
      exact Or.inl ⟨h.2, h.1.symm, rfl⟩
    | succ n =>
      unfold send_receive_spdm_certificate_loop at h
      cases hstep : send_receive_spdm_certificate_step respond common
          slot_id offset (n + 1) with
      | mk res0 c2 sent0 =>
        rw [hstep] at h
        cases res0 with
        | error st => simp at h
        | ok pr =>
          obtain ⟨p, r⟩ := pr
          dsimp only at h
          cases hrec : send_receive_spdm_certificate_loop respond slot_id
              fuel c2 (offset + p)
              (min r MAX_SPDM_CERT_PORTION_LEN) with
          | none => rw [hrec] at h; simp at h
          | some trip =>
            obtain ⟨res3, c3, ps⟩ := trip
            rw [hrec] at h
            simp at h
            obtain ⟨hres3, hc3, hps⟩ := h
            subst hres3
            subst hc3
            subst hps
            have hs := cert_step_ok_data_size hstep
            rcases ih _ _ _ _ _ hrec with hleft | hright
            · obtain ⟨hps0, hc, _⟩ := hleft
              subst hps0
              subst hc
              refine Or.inr ⟨?_, ?_⟩
              · simpa using hs.1
              · simpa using hs.2
            · refine Or.inr ⟨?_, ?_⟩
              · rw [hright.1, List.sum_cons]
                omega
              · have hb := hright.2
                rw [List.sum_cons]
                omega

/-- C6: each received certificate portion is rejected with an error —
before any copy into the peer certificate chain — when its portion_length
exceeds MAX_SPDM_CERT_PORTION_LEN or offset + portion_length exceeds
MAX_SPDM_CERT_CHAIN_DATA_SIZE; on acceptance data_size becomes
offset + portion_length; and a complete transfer (the fuelled loop
returning success from offset 0) leaves data_size equal to the sum of the
accepted portion lengths, never above the chain cap. -/
theorem C6_certificate_assembly :
    (∀ (respond : Bytes → Bytes) (common : SpdmContext)
      (slot_id offset length : Nat) (hdr : SpdmMessageHeader)
      (rest : Bytes) (cert : SpdmCertificateResponsePayload)
      (rest2 : Bytes) (mb1 : ManagedBuffer),
      common.runtime_info.message_b.append_message
        (certRequestBytes slot_id offset length) = some mb1 →
      SpdmMessageHeader.read
        (respond (certRequestBytes slot_id offset length)) =
        some (hdr, rest) →
      hdr.request_response_code = .SpdmResponseCertificate →
      SpdmCertificateResponsePayload.spdm_read rest = some (cert, rest2) →
      (MAX_SPDM_CERT_PORTION_LEN < cert.portion_length ∨
        MAX_SPDM_CERT_CHAIN_DATA_SIZE < offset + cert.portion_length) →
      (send_receive_spdm_certificate_step respond common slot_id offset
        length).result = .error .ENOMEM ∧
      (send_receive_spdm_certificate_step respond common slot_id offset
        length).common.peer_cert_chain = common.peer_cert_chain) ∧
    (∀ (respond : Bytes → Bytes) (common : SpdmContext)
      (slot_id offset length : Nat) (hdr : SpdmMessageHeader)
      (rest : Bytes) (cert : SpdmCertificateResponsePayload)
      (rest2 : Bytes) (mb1 : ManagedBuffer),
      common.runtime_info.message_b.append_message
        (certRequestBytes slot_id offset length) = some mb1 →
      SpdmMessageHeader.read
        (respond (certRequestBytes slot_id offset length)) =
        some (hdr, rest) →
      hdr.request_response_code = .SpdmResponseCertificate →
      SpdmCertificateResponsePayload.spdm_read rest = some (cert, rest2) →
      ¬(MAX_SPDM_CERT_PORTION_LEN < cert.portion_length ∨
        MAX_SPDM_CERT_CHAIN_DATA_SIZE < offset + cert.portion_length) →
      (send_receive_spdm_certificate_step respond common slot_id offset
        length).common.peer_cert_chain.data_size =
        offset + cert.portion_length) ∧
    (∀ (respond : Bytes → Bytes) (fuel : Nat) (common : SpdmContext)
      (slot_id : Nat) (common2 : SpdmContext) (portions : List Nat),
      send_receive_spdm_certificate respond fuel common slot_id =
        some (.ok (), common2, portions) →
      common2.peer_cert_chain.data_size = portions.sum ∧
      portions.sum ≤ MAX_SPDM_CERT_CHAIN_DATA_SIZE) := by
  refine ⟨?_, ?_, ?_⟩
  · intro respond common slot_id offset length hdr rest cert rest2 mb1
      happ hread hcode hcert hover
    obtain ⟨hv, hc⟩ := hdr
    simp only at hcode
    subst hcode
    unfold send_receive_spdm_certificate_step
    dsimp only
    simp only [certRequestBytes] at happ hread hcert
    simp only [happ, hread, hcert]
    rw [if_pos hover]
    exact ⟨rfl, rfl⟩
  · intro respond common slot_id offset length hdr rest cert rest2 mb1
      happ hread hcode hcert hover
    obtain ⟨hv, hc⟩ := hdr
    simp only at hcode
    subst hcode
    unfold send_receive_spdm_certificate_step
    dsimp only
    simp only [certRequestBytes] at happ hread hcert
    simp only [happ, hread, hcert]
    rw [if_neg hover]
    split <;> rfl
  · intro respond fuel common slot_id common2 portions h
    unfold send_receive_spdm_certificate at h
    rcases cert_loop_ok_sum respond slot_id fuel common 0
        MAX_SPDM_CERT_PORTION_LEN common2 portions h with hleft | hright
    · exact absurd hleft.2.2 (by decide)
    · simpa using hright

set_option maxRecDepth 100000 in
/-- C6, witness: an oversized 513-byte portion is rejected with the peer
chain untouched; an accepted 3-byte portion sets data_size to 3; and a
complete two-portion transfer (512-capped responder handing out 3 then 2
bytes) ends with data_size 5, the sum of the portions, within the cap. -/
theorem C6_certificate_assembly_witness :
    (send_receive_spdm_certificate_step
        (fun _ => [17, 2, 0, 0, 1, 2, 0, 0] ++ List.replicate 513 7)
        ⟨⟨false⟩, ⟨0x11, 2, 48⟩, ⟨false, .NOT_SUPPORTED, ⟨0, []⟩,
          ⟨2000, []⟩⟩, ⟨0, []⟩⟩ 0 0 512).result = .error .ENOMEM ∧
    (send_receive_spdm_certificate_step
        (fun _ => [17, 2, 0, 0, 3, 0, 2, 0, 10, 11, 12])
        ⟨⟨false⟩, ⟨0x11, 2, 48⟩, ⟨false, .NOT_SUPPORTED, ⟨0, []⟩,
          ⟨2000, []⟩⟩, ⟨0, []⟩⟩
        0 0 512).common.peer_cert_chain.data_size = 3 ∧
    ((⟨⟨false⟩, ⟨0x11, 2, 48⟩, ⟨false, .NOT_SUPPORTED, ⟨0, []⟩,
        ⟨2000, [17, 130, 0, 0, 0, 0, 0, 2, 17, 2, 0, 0, 3, 0, 2, 0, 10,
          11, 12, 17, 130, 0, 0, 3, 0, 2, 0, 17, 2, 0, 0, 2, 0, 0, 0, 13,
          14]⟩⟩, ⟨5, [10, 11, 12, 13, 14]⟩⟩ :
        SpdmContext).peer_cert_chain.data_size = List.sum [3, 2] ∧
      List.sum [3, 2] ≤ MAX_SPDM_CERT_CHAIN_DATA_SIZE) := by
  refine ⟨?_, ?_, ?_⟩
  · exact (C6_certificate_assembly.1
      (fun _ => [17, 2, 0, 0, 1, 2, 0, 0] ++ List.replicate 513 7)
      ⟨⟨false⟩, ⟨0x11, 2, 48⟩, ⟨false, .NOT_SUPPORTED, ⟨0, []⟩,
        ⟨2000, []⟩⟩, ⟨0, []⟩⟩ 0 0 512
      ⟨17, .SpdmResponseCertificate⟩
      ([0, 0, 1, 2, 0, 0] ++ List.replicate 513 7)
      ⟨0, 513, 0, List.replicate 513 7⟩ []
      ⟨2000, [17, 130, 0, 0, 0, 0, 0, 2]⟩
      (by decide) (by decide) rfl (by decide) (by decide)).1
  · exact C6_certificate_assembly.2.1
      (fun _ => [17, 2, 0, 0, 3, 0, 2, 0, 10, 11, 12])
      ⟨⟨false⟩, ⟨0x11, 2, 48⟩, ⟨false, .NOT_SUPPORTED, ⟨0, []⟩,
        ⟨2000, []⟩⟩, ⟨0, []⟩⟩ 0 0 512
      ⟨17, .SpdmResponseCertificate⟩ [0, 0, 3, 0, 2, 0, 10, 11, 12]
      ⟨0, 3, 2, [10, 11, 12]⟩ [] ⟨2000, [17, 130, 0, 0, 0, 0, 0, 2]⟩
      (by decide) (by decide) rfl (by decide) (by decide)
  · exact C6_certificate_assembly.2.2
      (fun req => if req.drop 4 = [0, 0, 0, 2] then
        [17, 2, 0, 0, 3, 0, 2, 0, 10, 11, 12]
      else [17, 2, 0, 0, 2, 0, 0, 0, 13, 14]) 5
      ⟨⟨false⟩, ⟨0x11, 2, 48⟩, ⟨false, .NOT_SUPPORTED, ⟨0, []⟩,
        ⟨2000, []⟩⟩, ⟨0, []⟩⟩ 0
      ⟨⟨false⟩, ⟨0x11, 2, 48⟩, ⟨false, .NOT_SUPPORTED, ⟨0, []⟩,
        ⟨2000, [17, 130, 0, 0, 0, 0, 0, 2, 17, 2, 0, 0, 3, 0, 2, 0, 10,
          11, 12, 17, 130, 0, 0, 3, 0, 2, 0, 17, 2, 0, 0, 2, 0, 0, 0, 13,
          14]⟩⟩, ⟨5, [10, 11, 12, 13, 14]⟩⟩
      [3, 2] (by decide)

end Spdm
